import Mathlib

/-!
# Verification of the parsr frontend / API-proxy layer

Shallow embedding of the parsr Next.js repository: the two API proxy routes
(`src/parsr-web/src/app/api/search/route.ts`,
`src/parsr-web/src/app/api/summarize/route.ts`) and the client search page
(`src/unnamed/part_003`, `src/parsr-web/src/app/search/[query]/page.tsx`,
landing page `src/unnamed/part_001`).

JavaScript is modelled as follows: a JSON field that may be absent is an
`Option`; JS truthiness of a string-valued field (`if (!query)`,
`errorData.detail || fallback`) is `strTruthy` (absent and the empty string
are falsy); `new Date().toISOString()` is an input parameter `now`;
`process.env.FASTAPI_URL` is an input `Option String`;
`decodeURIComponent` / `encodeURIComponent` are library functions left
abstract, passed as parameters.
-/

namespace Parsr

/-- JS truthiness of an optional string value: `undefined`/absent and `""`
are falsy, every other string is truthy. -/
def strTruthy : Option String → Bool
  | none => false
  | some s => s ≠ ""

/-- Resolution of `process.env.FASTAPI_URL || 'http://localhost:8000'`
(both routes compute this the same way). -/
def resolveFastApiUrl (env : Option String) : String :=
  if strTruthy env then env.getD "" else "http://localhost:8000"

/-- HTTP success check `response.ok`: true exactly for 200–299. -/
def statusOk (status : Nat) : Bool := 200 ≤ status && status < 300

/-- Substring test `error.message.includes(pat)`. -/
def jsIncludes (s pat : String) : Bool := decide (List.IsInfix pat.data s.data)

/-- Outcome of the `fetch` call a proxy route makes to the backend. -/
inductive FetchOutcome where
  /-- The backend answered with HTTP status `status`. `bodyText` is the raw
  response body (what `response.text()` yields); `jsonDetail` is the result
  of `(await response.json().catch(() => ({}))).detail` on that same body:
  `some d` when the body parses as JSON with a string field `detail`, `none`
  when parsing fails or the field is absent. -/
  | response (status : Nat) (bodyText : String) (jsonDetail : Option String)
  /-- Rejected `fetch`: the thrown error's `code`, `name` and `message`. -/
  | fetchError (code : Option String) (name : String) (message : String)
deriving DecidableEq, Repr

/-- The `debug` object built in each route's `catch` branch. -/
structure DebugInfo where
  fastApiUrl : String
  timestamp : String
  suggestion : Option String
deriving DecidableEq, Repr

/-- The JSON response a proxy route sends to the browser, with its HTTP
status.  Fields the route does not set on a given path are `none`. -/
structure ProxyResponse where
  status : Nat
  error : Option String
  fastApiUrl : Option String
  timestamp : Option String
  debug : Option DebugInfo
  originalError : Option String
  data : Option String
deriving DecidableEq, Repr

/-- Parsed JSON request body of `POST /api/search`
(`const { query, max_results = 20, page = 1, per_page = 20 } = body`). -/
structure SearchRouteBody where
  query : Option String
  max_results : Option Nat
  page : Option Nat
  per_page : Option Nat
deriving DecidableEq, Repr

/-- The body the search route forwards to `${fastApiUrl}/search`. -/
structure SearchForwardBody where
  query : String
  max_results : Nat
  page : Nat
  per_page : Nat
deriving DecidableEq, Repr

/-- Result of one invocation of a proxy route: the response it returns and
the body it forwarded to the backend (`none` when no backend request was
issued). -/
structure RouteResult (β : Type) where
  resp : ProxyResponse
  sent : Option β
deriving DecidableEq, Repr

/-- An all-`none` `ProxyResponse` carrying only a status and an error,
as produced by `NextResponse.json({ error }, { status })`. -/
def errOnly (status : Nat) (error : String) : ProxyResponse :=
  { status := status, error := some error, fastApiUrl := none,
    timestamp := none, debug := none, originalError := none, data := none }

/-- POST handler of `src/parsr-web/src/app/api/search/route.ts`.
`env` is `process.env.FASTAPI_URL`, `now` the value of
`new Date().toISOString()`, `backend` the behaviour of the `fetch` to
`${fastApiUrl}/search`. -/
def searchPOST (env : Option String) (now : String) (body : SearchRouteBody)
    (backend : SearchForwardBody → FetchOutcome) :
    RouteResult SearchForwardBody :=
  if ¬ strTruthy body.query then
    { resp := errOnly 400 "Query is required", sent := none }
  else
    let fastApiUrl := resolveFastApiUrl env
    let fwd : SearchForwardBody :=
      { query := body.query.getD "", max_results := body.max_results.getD 20,
        page := body.page.getD 1, per_page := body.per_page.getD 20 }
    match backend fwd with
    | .response status _bodyText jsonDetail =>
      if ¬ statusOk status then
        { resp :=
            { status := status,
              error := some (if strTruthy jsonDetail then jsonDetail.getD ""
                else "FastAPI responded with status: " ++ toString status),
              fastApiUrl := some fastApiUrl, timestamp := some now,
              debug := none, originalError := none, data := none },
          sent := some fwd }
      else
        { resp :=
            { status := 200, error := none, fastApiUrl := none,
              timestamp := none, debug := none, originalError := none,
              data := some _bodyText },
          sent := some fwd }
    | .fetchError code name message =>
      let classified : String × Option String :=
        if code = some "ECONNREFUSED" then
          ("Cannot connect to FastAPI backend. Please ensure it is running.",
           some "Check if your FastAPI server is running and accessible at the configured URL")
        else if name = "TypeError" && jsIncludes message "fetch failed" then
          ("Network error connecting to backend",
           some "Verify the FASTAPI_URL environment variable is correct")
        else
          ("Failed to fetch search results", none)
      { resp :=
          { status := 500, error := some classified.1, fastApiUrl := none,
            timestamp := none,
            debug := some { fastApiUrl := resolveFastApiUrl env,
                            timestamp := now, suggestion := classified.2 },
            originalError := some message, data := none },
        sent := some fwd }

/-- Parsed JSON request body of `POST /api/summarize`
(`const { source_url, original_query } = body`). -/
structure SummarizeRouteBody where
  source_url : Option String
  original_query : Option String
deriving DecidableEq, Repr

/-- The body the summarize route forwards to `${fastApiUrl}/summarize`. -/
structure SummarizeForwardBody where
  source_url : String
  original_query : String
deriving DecidableEq, Repr

/-- POST handler of `src/parsr-web/src/app/api/summarize/route.ts`. -/
def summarizePOST (env : Option String) (now : String)
    (body : SummarizeRouteBody)
    (backend : SummarizeForwardBody → FetchOutcome) :
    RouteResult SummarizeForwardBody :=
  if ¬ (strTruthy body.source_url && strTruthy body.original_query) then
    { resp := errOnly 400 "source_url and original_query are required",
      sent := none }
  else
    let fastApiUrl := resolveFastApiUrl env
    let fwd : SummarizeForwardBody :=
      { source_url := body.source_url.getD "",
        original_query := body.original_query.getD "" }
    match backend fwd with
    | .response status bodyText _jsonDetail =>
      if ¬ statusOk status then
        { resp :=
            { status := status,
              error := some ("Backend error: " ++ bodyText),
              fastApiUrl := some fastApiUrl, timestamp := some now,
              debug := none, originalError := none, data := none },
          sent := some fwd }
      else
        { resp :=
            { status := 200, error := none, fastApiUrl := none,
              timestamp := none, debug := none, originalError := none,
              data := some bodyText },
          sent := some fwd }
    | .fetchError code name message =>
      let classified : String × Option String :=
        if code = some "ECONNREFUSED" then
          ("Cannot connect to FastAPI backend. Please ensure it is running.",
           some "Check if your FastAPI server is running and accessible at the configured URL")
        else if name = "TypeError" && jsIncludes message "fetch failed" then
          ("Network error connecting to backend",
           some "Verify the FASTAPI_URL environment variable is correct")
        else
          ("Internal server error", none)
      { resp :=
          { status := 500, error := some classified.1, fastApiUrl := none,
            timestamp := none,
            debug := some { fastApiUrl := resolveFastApiUrl env,
                            timestamp := now, suggestion := classified.2 },
            originalError := some message, data := none },
        sent := some fwd }

/-- A concrete valid search request body, used by closed theorems below. -/
def sampleSearchBody : SearchRouteBody :=
  { query := some "rust vs go performance", max_results := none,
    page := none, per_page := none }

/-- A concrete valid summarize request body, used by closed theorems below. -/
def sampleSummarizeBody : SummarizeRouteBody :=
  { source_url := some "https://example.org/a",
    original_query := some "rust vs go performance" }

/-! ## Client-side data model (`src/unnamed/part_003` interfaces)

JS `number` fields that may be fractional (confidence scores, processing
time) are modelled as `Rat`; integral counters as `Nat`. -/

/-- Model of `interface SearchResult`. -/
structure SearchResult where
  title : String
  link : String
  snippet : String
  source_number : Nat
deriving DecidableEq, Repr

/-- The `value: string | number` field of `interface Statistic`. -/
inductive StatValue where
  | str (s : String)
  | num (n : Rat)
deriving DecidableEq, Repr

/-- Model of `interface Statistic`. -/
structure Statistic where
  value : StatValue
  unit : Option String
  context : String
  source_citation : String
  confidence : Rat
deriving DecidableEq, Repr

/-- Model of `interface KeyFinding`. -/
structure KeyFinding where
  finding : String
  category : String
  significance : String
  supporting_evidence : String
  limitations : Option String
deriving DecidableEq, Repr

/-- Model of `interface ResearchQuality`. -/
structure ResearchQuality where
  source_types : List String
  academic_paper_count : Nat
  publication_years : List Nat
  study_methodologies : List String
  sample_sizes : List String
deriving DecidableEq, Repr

/-- Model of `interface AIOverview`. -/
structure AIOverview where
  summary : String
  key_points : List String
  statistics : List Statistic
  key_findings : List KeyFinding
  research_quality : ResearchQuality
  confidence_score : Rat
deriving DecidableEq, Repr

/-- Model of `interface SourceSummary`. -/
structure SourceSummary where
  summary : String
  key_points : List String
  statistics : List Statistic
  relevance_to_query : String
  confidence_score : Rat
  content_type : String
deriving DecidableEq, Repr

/-- Model of `interface SearchResponse`. -/
structure SearchResponse where
  query : String
  search_results : List SearchResult
  ai_overview : AIOverview
  sources : List SearchResult
  total_results : Nat
  processing_time : Rat
  current_page : Nat
  per_page : Nat
  total_available : Nat
  has_next_page : Bool
deriving DecidableEq, Repr

/-- The module-level `searchCache = new Map<string, SearchResponse>()`,
as an association list; `Map.get` is `List.lookup`. -/
abbrev SearchCache := List (String × SearchResponse)

/-- Map update `searchCache.set(k, v)`: replace the entry for `k` when present,
append it otherwise (a JS `Map` keeps one entry per key). -/
def cacheSet (cache : SearchCache) (k : String) (v : SearchResponse) :
    SearchCache :=
  if cache.any (fun p => p.1 == k) then
    cache.map (fun p => if p.1 == k then (k, v) else p)
  else cache ++ [(k, v)]

/-- The three React states the search `useEffect` writes:
`results`, `loading`, `error`. -/
structure UiState where
  results : Option SearchResponse
  loading : Bool
  error : Option String
deriving DecidableEq, Repr

/-- What the search `useEffect` of `SearchPage` (`src/unnamed/part_003`)
does synchronously when its dependencies `[query, currentPage]` fire:
either an immediate state update (early return on falsy `query`, or a
session-cache hit) or entering the loading state with one `fetch` to
`/api/search` whose body is returned in `request`. -/
structure EffectStart where
  ui : UiState
  request : Option SearchForwardBody
deriving DecidableEq, Repr

/-- The body of the search `useEffect`: `if (!query) return`, decode the
query, check `searchCache` first (hit: render cached response, no fetch),
otherwise `setLoading(true); setError(null)` and issue the `/api/search`
request `{ query: decodedQuery, max_results: 20, page: currentPage,
per_page: 20 }`.  `decode` stands for the library function
`decodeURIComponent`. -/
def runSearchEffect (decode : String → String) (cache : SearchCache)
    (query : String) (currentPage : Nat) (ui : UiState) : EffectStart :=
  if query = "" then { ui := ui, request := none }
  else
    let decodedQuery := decode query
    match List.lookup decodedQuery cache with
    | some cachedResult =>
        { ui := { results := some cachedResult, loading := false,
                  error := none },
          request := none }
    | none =>
        { ui := { ui with loading := true, error := none },
          request := some { query := decodedQuery, max_results := 20,
                            page := currentPage, per_page := 20 } }

/-- A minimal concrete `SearchResponse`, flagged as page 1 of query
`"rust"`, used as failing input / witness below. -/
def page1Response : SearchResponse :=
  { query := "rust", search_results := [], ai_overview :=
      { summary := "s", key_points := [], statistics := [],
        key_findings := [], research_quality :=
          { source_types := [], academic_paper_count := 0,
            publication_years := [], study_methodologies := [],
            sample_sizes := [] },
        confidence_score := 1 },
    sources := [], total_results := 20, processing_time := 1,
    current_page := 1, per_page := 20, total_available := 40,
    has_next_page := true }

/-! ## Stale-response protection (the `aborted` flag of the search effect)

Each run of the search `useEffect` closes over its own `let aborted =
false`; the effect's cleanup (run on query/page change and on unmount)
sets it, and every state write after an `await` is guarded by it
(`if (aborted) return` / `if (!aborted) { ... }`).  The machine below has
one `InFlight` record per issued request; `Event.navigate` models a
dependency change (cleanup of the previous effect run, then the new run),
`Event.teardown` the unmount cleanup, `Event.resolve` the arrival of a
request's response. -/

/-- One issued `/api/search` request: its effect run's identity, the
decoded query it captured (used as the cache key on success), and the
closed-over `aborted` flag. -/
structure InFlight where
  id : Nat
  decodedQuery : String
  aborted : Bool
deriving DecidableEq, Repr

/-- How an issued search request comes back: `response.ok` with parsed
data, `!response.ok` (the effect throws `new Error(errorData.error)`),
or a rejected fetch/parse (caught with its message). -/
inductive SearchOutcome where
  | ok (data : SearchResponse)
  | errorResp (msg : String)
  | reject (msg : String)
deriving DecidableEq, Repr

/-- The page component's state relevant to the search effect. -/
structure Machine where
  ui : UiState
  cache : SearchCache
  inflight : List InFlight
  nextId : Nat
deriving DecidableEq, Repr

/-- Events of the search page's lifecycle. -/
inductive Event where
  | navigate (query : String) (page : Nat)
  | teardown
  | resolve (id : Nat) (outcome : SearchOutcome)
deriving DecidableEq, Repr

/-- The cleanup `return () => { aborted = true; }` applied to every
not-yet-resolved request (earlier ones are already aborted, so setting
the flag again is harmless). -/
def abortAll (l : List InFlight) : List InFlight :=
  l.map (fun r => { r with aborted := true })

/-- The in-flight records a new effect run adds: one fresh request on a
cache miss, none otherwise. -/
def newRequests (nid : Nat) : Option SearchForwardBody → List InFlight
  | none => []
  | some fwd => [{ id := nid, decodedQuery := fwd.query, aborted := false }]

/-- Dependency change `[query, currentPage]`: run the previous cleanup,
then the new effect body (`runSearchEffect`); a cache miss issues a fresh
request with a not-yet-set aborted flag.  Every run gets a fresh identity
(`nextId` bump) whether or not it fetches. -/
def stepNavigate (decode : String → String) (q : String) (p : Nat)
    (m : Machine) : Machine :=
  let es := runSearchEffect decode m.cache q p m.ui
  { ui := es.ui, cache := m.cache,
    inflight := abortAll m.inflight ++ newRequests m.nextId es.request,
    nextId := m.nextId + 1 }

/-- Processing one request's response, exactly as the effect's
continuation does: every write is guarded by the `aborted` flag; success
writes `results`, the cache entry and `loading`; a failure writes `error`
and `loading`. -/
def resolveOne (r : InFlight) (o : SearchOutcome) (m : Machine) : Machine :=
  if r.aborted then m
  else
    match o with
    | .ok data =>
        { m with
          ui := { results := some data, loading := false,
                  error := m.ui.error },
          cache := cacheSet m.cache r.decodedQuery data }
    | .errorResp msg =>
        { m with ui := { m.ui with error := some msg, loading := false } }
    | .reject msg =>
        { m with ui := { m.ui with error := some msg, loading := false } }

/-- One step of the lifecycle machine. -/
def step (decode : String → String) (e : Event) (m : Machine) : Machine :=
  match e with
  | .navigate q p => stepNavigate decode q p m
  | .teardown => { m with inflight := abortAll m.inflight }
  | .resolve i o =>
      match m.inflight.find? (fun r => r.id == i) with
      | none => m
      | some r =>
          { resolveOne r o m with
            inflight := m.inflight.filter (fun r => r.id != i) }

/-- Iterated steps. -/
def steps (decode : String → String) (es : List Event) (m : Machine) :
    Machine :=
  es.foldl (fun acc e => step decode e acc) m

/-- Well-formedness: every in-flight id was allocated below `nextId`. -/
def Wf (m : Machine) : Prop := ∀ r ∈ m.inflight, r.id < m.nextId

/-- The supersession invariant for request id `i`: ids stay below
`nextId`, `i` is an already-allocated id, and every in-flight record with
id `i` has its aborted flag set. -/
def Superseded (i : Nat) (m : Machine) : Prop :=
  Wf m ∧ i < m.nextId ∧ ∀ r ∈ m.inflight, r.id = i → r.aborted = true

/-! ## Source tabs and per-source summaries (`src/unnamed/part_003`) -/

/-- The tab/summary state of `SearchPage`: `sourceTabs`, `activeTab`, the
`Record<number, SourceSummary | null>` of stored summaries (an absent key
is `none` on lookup, a stored JS `null` is `some none`), and the
`Record<number, boolean>` of loading flags. -/
structure TabsState where
  sourceTabs : List SearchResult
  activeTab : String
  sourceSummaries : List (Nat × Option SourceSummary)
  loadingSummaries : List (Nat × Bool)
deriving DecidableEq, Repr

/-- The tab id `` `source-${n}` ``. -/
def sourceTabId (n : Nat) : String := "source-" ++ toString n

/-- Record spread update on a numeric-keyed record. -/
def recordSet {α : Type} (l : List (Nat × α)) (k : Nat) (v : α) :
    List (Nat × α) :=
  if l.any (fun p => p.1 == k) then
    l.map (fun p => if p.1 == k then (k, v) else p)
  else l ++ [(k, v)]

/-- JS truthiness of `sourceSummaries[n]`: truthy only when the key is
present with a non-`null` summary object. -/
def summaryTruthy : Option (Option SourceSummary) → Bool
  | some (some _) => true
  | _ => false

/-- The synchronous prefix of `fetchSourceSummary`: the guard
`if (sourceSummaries[n] || loadingSummaries[n]) return`, then
`setLoadingSummaries(..., true)` and one request to `/api/summarize` with
`{ source_url: source.link, original_query: decodeURIComponent(query) }`
(`decodedQuery` is that decoded query). -/
def fetchSourceSummaryStart (decodedQuery : String) (source : SearchResult)
    (st : TabsState) : TabsState × Option SummarizeForwardBody :=
  if summaryTruthy (List.lookup source.source_number st.sourceSummaries)
      || (List.lookup source.source_number st.loadingSummaries).getD false then
    (st, none)
  else
    ({ st with loadingSummaries :=
        recordSet st.loadingSummaries source.source_number true },
     some { source_url := source.link, original_query := decodedQuery })

/-- Handler `openSourceTab`: if a tab for this source number is already open, only
switch `activeTab`; otherwise append the tab, switch to it, and start
`fetchSourceSummary`. -/
def openSourceTab (decodedQuery : String) (source : SearchResult)
    (st : TabsState) : TabsState × Option SummarizeForwardBody :=
  if st.sourceTabs.any (fun tab => tab.source_number == source.source_number) then
    ({ st with activeTab := sourceTabId source.source_number }, none)
  else
    fetchSourceSummaryStart decodedQuery source
      { st with sourceTabs := st.sourceTabs ++ [source],
                activeTab := sourceTabId source.source_number }

/-- The close-button handler of a source tab: filter the tab out of
`sourceTabs`; if it was the active tab, fall back to `"overview"`. -/
def closeSourceTab (n : Nat) (st : TabsState) : TabsState :=
  { st with
    sourceTabs := st.sourceTabs.filter (fun tab => tab.source_number ≠ n),
    activeTab := if st.activeTab = sourceTabId n then "overview"
      else st.activeTab }

/-- A concrete source result for the C8 witness. -/
def tabSource : SearchResult :=
  { title := "a", link := "https://a", snippet := "s", source_number := 1 }

/-- A concrete tab state with source I's tab open and active. -/
def tabsStateOpen : TabsState :=
  { sourceTabs := [tabSource], activeTab := sourceTabId 1,
    sourceSummaries := [], loadingSummaries := [(1, true)] }

/-! ## Search form submission (`handleSubmit`) -/

/-- Model of `String.prototype.trim`: strip whitespace from both ends
(executable counterpart of Lean's `String.trim`, whose `Substring`
implementation does not reduce in the kernel). -/
def jsTrim (s : String) : String :=
  String.mk
    (((s.data.dropWhile Char.isWhitespace).reverse.dropWhile
        Char.isWhitespace).reverse)

/-- Handler `handleSubmit` of the landing page (`src/unnamed/part_001`): reject a
query whose `trim()` is empty (`if (!query.trim()) return`), otherwise
push `` `search/${encodeURIComponent(query)}` `` once.  The returned list
is the sequence of `router.push` calls; `encode` stands for the library
function `encodeURIComponent`. -/
def landingHandleSubmit (encode : String → String) (query : String) :
    List String :=
  if jsTrim query = "" then [] else ["search/" ++ encode query]

/-- Handler `handleSubmit` of `SearchPage` (`src/unnamed/part_003`): same guard,
resets `currentPage` to 1 (`some 1` in the second component) and pushes
`` `/search/${encodeURIComponent(searchQuery)}` `` once. -/
def searchPageHandleSubmit (encode : String → String)
    (searchQuery : String) : List String × Option Nat :=
  if jsTrim searchQuery = "" then ([], none)
  else (["/search/" ++ encode searchQuery], some 1)

/-! ## Roman numeral helper (`toRomanNumeral`, `src/unnamed/part_003`) -/

/-- The parallel `values` / `symbols` arrays of `toRomanNumeral`. -/
def romanTable : List (Nat × String) :=
  [(1000, "M"), (900, "CM"), (500, "D"), (400, "CD"), (100, "C"),
   (90, "XC"), (50, "L"), (40, "XL"), (10, "X"), (9, "IX"),
   (5, "V"), (4, "IV"), (1, "I")]

/-- The inner `while (num >= values[i]) { result += symbols[i]; num -=
values[i] }` loop, written with explicit fuel so that it is structurally
recursive (and hence evaluates in the kernel).  `romanLoop` below supplies
fuel `num.toNat`, which suffices: every iteration needs `0 < v ≤ num` and
decreases `num` by `v ≥ 1`, so the loop stops by itself within `num.toNat`
iterations and the fuel never cuts it short. -/
def romanLoopGo : Nat → Nat → String → Int → String → String × Int
  | 0, _, _, num, acc => (acc, num)
  | fuel + 1, v, s, num, acc =>
      if 0 < v ∧ (v : Int) ≤ num then romanLoopGo fuel v s (num - v) (acc ++ s)
      else (acc, num)

/-- One symbol's while loop: returns the grown `result` and the
decremented `num`.  (All `values` entries are positive, so the `0 < v`
conjunct in the guard never differs from the source's `num >= values[i]`.) -/
def romanLoop (v : Nat) (s : String) (num : Int) (acc : String) :
    String × Int :=
  romanLoopGo num.toNat v s num acc

/-- The outer `for` loop over the value/symbol table. -/
def romanFold : List (Nat × String) → Int → String → String
  | [], _, acc => acc
  | (v, s) :: rest, num, acc =>
      let p := romanLoop v s num acc
      romanFold rest p.2 p.1

/-- Helper `toRomanNumeral` (`src/unnamed/part_003`): greedy conversion of a
number to a Roman numeral string.  The argument is an `Int` (the claim
also concerns non-positive inputs). -/
def toRomanNumeral (num : Int) : String := romanFold romanTable num ""

/-- Reference decoder for Roman numerals: scan the string greedily with
the same value/symbol table, taking the first symbol that is a prefix and
summing its value.  (Specification-side definition used to state that
`toRomanNumeral`'s output decodes back to its input; fuel
`length + table length` strictly dominates the scan, which shortens the
string or the table on every step.) -/
def fromRomanGo : Nat → List (Nat × String) → List Char → Nat
  | 0, _, _ => 0
  | _, [], _ => 0
  | fuel + 1, (v, s) :: rest, cs =>
      if s.data ≠ [] ∧ s.data.isPrefixOf cs then
        v + fromRomanGo fuel ((v, s) :: rest) (cs.drop s.data.length)
      else fromRomanGo fuel rest cs

/-- Decode a Roman numeral string to its value. -/
def fromRoman (s : String) : Nat :=
  fromRomanGo (s.data.length + romanTable.length) romanTable s.data

/-- Repeated append: `joinRep s k` is `s` appended `k` times (what one
symbol of the while loop emits). -/
def joinRep (s : String) : Nat → String
  | 0 => ""
  | k + 1 => s ++ joinRep s k

/-- The canonical digit combination over four group symbols: what the
greedy loop emits for one decimal digit of the input. -/
def digitStr (s9 s5 s4 s1 : String) : Nat → String
  | 1 => s1
  | 2 => s1 ++ s1
  | 3 => s1 ++ s1 ++ s1
  | 4 => s4
  | 5 => s5
  | 6 => s5 ++ s1
  | 7 => s5 ++ s1 ++ s1
  | 8 => s5 ++ s1 ++ s1 ++ s1
  | 9 => s9
  | _ => ""

/-- The greedy decoder again, by well-founded recursion instead of fuel:
used for the correctness proof (`fromRomanGo_eq` links the two). -/
def fromRomanWF : List (Nat × String) → List Char → Nat
  | [], _ => 0
  | (v, s) :: rest, cs =>
      if h : s.data ≠ [] ∧ s.data.isPrefixOf cs then
        v + fromRomanWF ((v, s) :: rest) (cs.drop s.data.length)
      else fromRomanWF rest cs
termination_by t cs => (cs.length, t.length)
decreasing_by
  · apply Prod.Lex.left
    have h1 : s.data.length ≤ cs.length :=
      (List.isPrefixOf_iff_prefix.mp h.2).length_le
    have h3 : 0 < s.data.length := List.length_pos.mpr h.1
    simp only [List.length_drop]
    omega
  · apply Prod.Lex.right
    simp

/-- Whether the first character of `cs` (when any) avoids every character
in `bad`; the side condition under which the greedy decoder passes over a
table entry without consuming anything. -/
def headNotIn (cs : List Char) (bad : List Char) : Bool :=
  match cs with
  | [] => true
  | c :: _ => !(bad.contains c)

/-- The table from the `"CM"` entry on. -/
def romanT1 : List (Nat × String) :=
  [(900, "CM"), (500, "D"), (400, "CD"), (100, "C"), (90, "XC"), (50, "L"),
   (40, "XL"), (10, "X"), (9, "IX"), (5, "V"), (4, "IV"), (1, "I")]

/-- The table from the `"XC"` entry on. -/
def romanT2 : List (Nat × String) :=
  [(90, "XC"), (50, "L"), (40, "XL"), (10, "X"), (9, "IX"), (5, "V"),
   (4, "IV"), (1, "I")]

/-- The table from the `"IX"` entry on. -/
def romanT3 : List (Nat × String) := [(9, "IX"), (5, "V"), (4, "IV"), (1, "I")]

example :
    (searchPOST none "t" sampleSearchBody
      (fun _ => .response 503 "x" (some "overloaded"))).resp.error
      = some "overloaded" := by decide

example :
    (searchPOST none "t" sampleSearchBody
      (fun _ => .response 503 "x" (some ""))).resp.error
      = some "FastAPI responded with status: 503" := by decide

theorem strTruthy_some (s : String) : strTruthy (some s) = decide (s ≠ "") := by
  simp [strTruthy]

/-- C1 (amended): for every backend response with a non-success status `s`
and a JSON body whose `detail` field is a non-empty string `d`, the search
proxy responds with status `s`, error message `d`, and the diagnostic
fields `fastApiUrl` and `timestamp`. -/
theorem searchProxy_relays_backend_detail (env : Option String)
    (now : String) (body : SearchRouteBody) (s : Nat) (txt d : String)
    (hq : strTruthy body.query = true) (hs : statusOk s = false)
    (hd : d ≠ "") :
    (searchPOST env now body (fun _ => .response s txt (some d))).resp.status = s
    ∧ (searchPOST env now body (fun _ => .response s txt (some d))).resp.error = some d
    ∧ (searchPOST env now body (fun _ => .response s txt (some d))).resp.fastApiUrl
        = some (resolveFastApiUrl env)
    ∧ (searchPOST env now body (fun _ => .response s txt (some d))).resp.timestamp
        = some now := by
  simp [searchPOST, hq, hs, strTruthy_some, hd]

/-- C1 witness: a backend 503 with detail `"overloaded"` yields a 503
response whose error is `"overloaded"`. -/
theorem searchProxy_relays_backend_detail_witness :
    (searchPOST none "2026-01-01T00:00:00.000Z" sampleSearchBody
        (fun _ => .response 503 "\x7b\"detail\":\"overloaded\"\x7d"
          (some "overloaded"))).resp.status = 503
    ∧ (searchPOST none "2026-01-01T00:00:00.000Z" sampleSearchBody
        (fun _ => .response 503 "\x7b\"detail\":\"overloaded\"\x7d"
          (some "overloaded"))).resp.error = some "overloaded"
    ∧ (searchPOST none "2026-01-01T00:00:00.000Z" sampleSearchBody
        (fun _ => .response 503 "\x7b\"detail\":\"overloaded\"\x7d"
          (some "overloaded"))).resp.fastApiUrl
        = some (resolveFastApiUrl none)
    ∧ (searchPOST none "2026-01-01T00:00:00.000Z" sampleSearchBody
        (fun _ => .response 503 "\x7b\"detail\":\"overloaded\"\x7d"
          (some "overloaded"))).resp.timestamp
        = some "2026-01-01T00:00:00.000Z" :=
  searchProxy_relays_backend_detail none "2026-01-01T00:00:00.000Z"
    sampleSearchBody 503 "\x7b\"detail\":\"overloaded\"\x7d" "overloaded"
    (by decide) (by decide) (by decide)

/-- C1 counterexample: a backend 503 whose JSON body contains the `detail`
field with value `""` (a JSON body containing a `detail` field) is answered
with the generic message `"FastAPI responded with status: 503"`, not with
that detail string: `errorData.detail || fallback` falls through on the
falsy empty string. -/
theorem searchProxy_detail_counterexample :
    (searchPOST none "2026-01-01T00:00:00.000Z" sampleSearchBody
        (fun _ => .response 503 "\x7b\"detail\":\"\"\x7d" (some ""))).resp.status = 503
    ∧ (searchPOST none "2026-01-01T00:00:00.000Z" sampleSearchBody
        (fun _ => .response 503 "\x7b\"detail\":\"\"\x7d" (some ""))).resp.error
        ≠ some "" := by decide

/-- C4: every transport-level fetch failure makes the search proxy answer
with status 500 and a debug payload carrying the resolved backend URL and
the timestamp; a connection-refused error is classified as "cannot connect
to the backend", and a `TypeError` whose message contains `fetch failed`
as a network error with the suggestion to verify `FASTAPI_URL`. -/
theorem searchProxy_transport_failure (env : Option String) (now : String)
    (body : SearchRouteBody) (code : Option String) (nm msg : String)
    (hq : strTruthy body.query = true) :
    (searchPOST env now body (fun _ => .fetchError code nm msg)).resp.status = 500
    ∧ (searchPOST env now body (fun _ => .fetchError code nm msg)).resp.debug.map
        DebugInfo.fastApiUrl = some (resolveFastApiUrl env)
    ∧ (searchPOST env now body (fun _ => .fetchError code nm msg)).resp.debug.map
        DebugInfo.timestamp = some now
    ∧ (code = some "ECONNREFUSED" →
        (searchPOST env now body (fun _ => .fetchError code nm msg)).resp.error
          = some "Cannot connect to FastAPI backend. Please ensure it is running.")
    ∧ (code ≠ some "ECONNREFUSED" → nm = "TypeError" →
        jsIncludes msg "fetch failed" = true →
        (searchPOST env now body (fun _ => .fetchError code nm msg)).resp.error
          = some "Network error connecting to backend"
        ∧ (searchPOST env now body (fun _ => .fetchError code nm msg)).resp.debug.map
            DebugInfo.suggestion
          = some (some "Verify the FASTAPI_URL environment variable is correct")) := by
  by_cases hc : code = some "ECONNREFUSED"
  · simp [searchPOST, hq, hc]
  · by_cases hn : nm = "TypeError" ∧ jsIncludes msg "fetch failed" = true
    · simp [searchPOST, hq, hc, hn.1, hn.2]
    · rcases Decidable.not_and_iff_or_not.mp hn with h | h <;>
        simp_all [searchPOST, hq, hc]

/-- C4 witness: a connection-refused failure yields the classified 500. -/
theorem searchProxy_transport_failure_witness :
    (searchPOST none "now" sampleSearchBody
        (fun _ => .fetchError (some "ECONNREFUSED") "Error"
          "connect ECONNREFUSED 127.0.0.1:8000")).resp.status = 500
    ∧ (searchPOST none "now" sampleSearchBody
        (fun _ => .fetchError (some "ECONNREFUSED") "Error"
          "connect ECONNREFUSED 127.0.0.1:8000")).resp.debug.map
        DebugInfo.fastApiUrl = some (resolveFastApiUrl none)
    ∧ (searchPOST none "now" sampleSearchBody
        (fun _ => .fetchError (some "ECONNREFUSED") "Error"
          "connect ECONNREFUSED 127.0.0.1:8000")).resp.debug.map
        DebugInfo.timestamp = some "now"
    ∧ (some "ECONNREFUSED" = some "ECONNREFUSED" →
        (searchPOST none "now" sampleSearchBody
          (fun _ => .fetchError (some "ECONNREFUSED") "Error"
            "connect ECONNREFUSED 127.0.0.1:8000")).resp.error
          = some "Cannot connect to FastAPI backend. Please ensure it is running.")
    ∧ (some "ECONNREFUSED" ≠ some "ECONNREFUSED" → "Error" = "TypeError" →
        jsIncludes "connect ECONNREFUSED 127.0.0.1:8000" "fetch failed" = true →
        (searchPOST none "now" sampleSearchBody
          (fun _ => .fetchError (some "ECONNREFUSED") "Error"
            "connect ECONNREFUSED 127.0.0.1:8000")).resp.error
          = some "Network error connecting to backend"
        ∧ (searchPOST none "now" sampleSearchBody
            (fun _ => .fetchError (some "ECONNREFUSED") "Error"
              "connect ECONNREFUSED 127.0.0.1:8000")).resp.debug.map
            DebugInfo.suggestion
          = some (some "Verify the FASTAPI_URL environment variable is correct")) :=
  searchProxy_transport_failure none "now" sampleSearchBody
    (some "ECONNREFUSED") "Error" "connect ECONNREFUSED 127.0.0.1:8000"
    (by decide)

/-- C3 counterexample: the two proxies do NOT share one error-normalization
policy.  On the same backend 503 with body `\x7b"detail":"overloaded"\x7d`,
the search proxy answers with error `"overloaded"` (the parsed detail) while
the summarize proxy answers with `"Backend error: ..."` wrapping the raw
body text; and on the same unclassified transport failure their fallback
messages differ (`"Failed to fetch search results"` vs
`"Internal server error"`). -/
theorem summarizeProxy_policy_counterexample :
    (searchPOST none "now" sampleSearchBody
        (fun _ => .response 503 "\x7b\"detail\":\"overloaded\"\x7d"
          (some "overloaded"))).resp.error = some "overloaded"
    ∧ (summarizePOST none "now" sampleSummarizeBody
        (fun _ => .response 503 "\x7b\"detail\":\"overloaded\"\x7d"
          (some "overloaded"))).resp.error
        = some "Backend error: \x7b\"detail\":\"overloaded\"\x7d"
    ∧ (summarizePOST none "now" sampleSummarizeBody
        (fun _ => .response 503 "\x7b\"detail\":\"overloaded\"\x7d"
          (some "overloaded"))).resp.error
        ≠ (searchPOST none "now" sampleSearchBody
            (fun _ => .response 503 "\x7b\"detail\":\"overloaded\"\x7d"
              (some "overloaded"))).resp.error
    ∧ (searchPOST none "now" sampleSearchBody
        (fun _ => .fetchError none "Error" "boom")).resp.error
        = some "Failed to fetch search results"
    ∧ (summarizePOST none "now" sampleSummarizeBody
        (fun _ => .fetchError none "Error" "boom")).resp.error
        = some "Internal server error" := by decide

/-- C3 (amended): the summarize proxy relays every non-success backend
status together with `"Backend error: "` followed by the raw backend body
text (not the parsed `detail` field) plus the `fastApiUrl`/`timestamp`
diagnostics; on transport failures it answers 500 with a debug payload
identical to the search proxy's, the same `originalError`, and — for the
connection-refused and `TypeError`/`fetch failed` signatures — the same
classified error message; only the unclassified fallback message differs. -/
theorem summarizeProxy_error_policy (env : Option String) (now : String)
    (body : SearchRouteBody) (sbody : SummarizeRouteBody)
    (s : Nat) (txt : String) (detail : Option String)
    (code : Option String) (nm msg : String)
    (hq : strTruthy body.query = true)
    (hu : strTruthy sbody.source_url = true)
    (ho : strTruthy sbody.original_query = true)
    (hs : statusOk s = false) :
    (summarizePOST env now sbody (fun _ => .response s txt detail)).resp.status = s
    ∧ (summarizePOST env now sbody (fun _ => .response s txt detail)).resp.error
        = some ("Backend error: " ++ txt)
    ∧ (summarizePOST env now sbody (fun _ => .response s txt detail)).resp.fastApiUrl
        = some (resolveFastApiUrl env)
    ∧ (summarizePOST env now sbody (fun _ => .response s txt detail)).resp.timestamp
        = some now
    ∧ (summarizePOST env now sbody (fun _ => .fetchError code nm msg)).resp.status
        = (searchPOST env now body (fun _ => .fetchError code nm msg)).resp.status
    ∧ (summarizePOST env now sbody (fun _ => .fetchError code nm msg)).resp.debug
        = (searchPOST env now body (fun _ => .fetchError code nm msg)).resp.debug
    ∧ (summarizePOST env now sbody (fun _ => .fetchError code nm msg)).resp.originalError
        = (searchPOST env now body (fun _ => .fetchError code nm msg)).resp.originalError
    ∧ ((code = some "ECONNREFUSED"
        ∨ (nm = "TypeError" ∧ jsIncludes msg "fetch failed" = true)) →
        (summarizePOST env now sbody (fun _ => .fetchError code nm msg)).resp.error
          = (searchPOST env now body (fun _ => .fetchError code nm msg)).resp.error) := by
  have hv : (strTruthy sbody.source_url && strTruthy sbody.original_query) = true := by
    simp [hu, ho]
  refine ⟨?_, ?_, ?_, ?_, ?_, ?_, ?_, ?_⟩
  · simp [summarizePOST, hv, hs]
  · simp [summarizePOST, hv, hs]
  · simp [summarizePOST, hv, hs]
  · simp [summarizePOST, hv, hs]
  all_goals
    by_cases hc : code = some "ECONNREFUSED"
    case pos => simp [summarizePOST, searchPOST, hv, hq, hc]
    case neg =>
      by_cases hn : nm = "TypeError" ∧ jsIncludes msg "fetch failed" = true
      case pos => simp [summarizePOST, searchPOST, hv, hq, hc, hn.1, hn.2]
      case neg =>
        rcases Decidable.not_and_iff_or_not.mp hn with h | h <;>
          simp_all [summarizePOST, searchPOST, hv, hq, hc]

/-- C3 witness: concrete valid bodies, a backend 502, and a
connection-refused transport failure. -/
theorem summarizeProxy_error_policy_witness :
    (summarizePOST none "now" sampleSummarizeBody
        (fun _ => .response 502 "bad gateway" none)).resp.status = 502
    ∧ (summarizePOST none "now" sampleSummarizeBody
        (fun _ => .response 502 "bad gateway" none)).resp.error
        = some ("Backend error: " ++ "bad gateway")
    ∧ (summarizePOST none "now" sampleSummarizeBody
        (fun _ => .response 502 "bad gateway" none)).resp.fastApiUrl
        = some (resolveFastApiUrl none)
    ∧ (summarizePOST none "now" sampleSummarizeBody
        (fun _ => .response 502 "bad gateway" none)).resp.timestamp
        = some "now"
    ∧ (summarizePOST none "now" sampleSummarizeBody
        (fun _ => .fetchError (some "ECONNREFUSED") "Error" "refused")).resp.status
        = (searchPOST none "now" sampleSearchBody
            (fun _ => .fetchError (some "ECONNREFUSED") "Error" "refused")).resp.status
    ∧ (summarizePOST none "now" sampleSummarizeBody
        (fun _ => .fetchError (some "ECONNREFUSED") "Error" "refused")).resp.debug
        = (searchPOST none "now" sampleSearchBody
            (fun _ => .fetchError (some "ECONNREFUSED") "Error" "refused")).resp.debug
    ∧ (summarizePOST none "now" sampleSummarizeBody
        (fun _ => .fetchError (some "ECONNREFUSED") "Error" "refused")).resp.originalError
        = (searchPOST none "now" sampleSearchBody
            (fun _ => .fetchError (some "ECONNREFUSED") "Error" "refused")).resp.originalError
    ∧ ((some "ECONNREFUSED" = some "ECONNREFUSED"
        ∨ ("Error" = "TypeError" ∧ jsIncludes "refused" "fetch failed" = true)) →
        (summarizePOST none "now" sampleSummarizeBody
          (fun _ => .fetchError (some "ECONNREFUSED") "Error" "refused")).resp.error
          = (searchPOST none "now" sampleSearchBody
              (fun _ => .fetchError (some "ECONNREFUSED") "Error" "refused")).resp.error) :=
  summarizeProxy_error_policy none "now" sampleSearchBody sampleSummarizeBody
    502 "bad gateway" none (some "ECONNREFUSED") "Error" "refused"
    (by decide) (by decide) (by decide) (by decide)

/-- C5: a missing required field makes each proxy return 400 with a
descriptive message and forward nothing to the backend. -/
theorem proxy_missing_field_400 (env : Option String) (now : String)
    (body : SearchRouteBody) (sbody : SummarizeRouteBody)
    (backend : SearchForwardBody → FetchOutcome)
    (sbackend : SummarizeForwardBody → FetchOutcome)
    (hq : body.query = none)
    (hs : sbody.source_url = none ∨ sbody.original_query = none) :
    searchPOST env now body backend
      = { resp := errOnly 400 "Query is required", sent := none }
    ∧ summarizePOST env now sbody sbackend
      = { resp := errOnly 400 "source_url and original_query are required",
          sent := none } := by
  constructor
  · simp [searchPOST, strTruthy, hq]
  · rcases hs with h | h <;> simp [summarizePOST, strTruthy, h]

/-- C5 witness: concrete bodies with the required field absent. -/
theorem proxy_missing_field_400_witness :
    searchPOST none "now"
        { query := none, max_results := none, page := none, per_page := none }
        (fun _ => .response 200 "" none)
      = { resp := errOnly 400 "Query is required", sent := none }
    ∧ summarizePOST none "now"
        { source_url := none, original_query := some "q" }
        (fun _ => .response 200 "" none)
      = { resp := errOnly 400 "source_url and original_query are required",
          sent := none } :=
  proxy_missing_field_400 none "now"
    { query := none, max_results := none, page := none, per_page := none }
    { source_url := none, original_query := some "q" }
    (fun _ => .response 200 "" none) (fun _ => .response 200 "" none)
    rfl (Or.inl rfl)

/-- C6: a query whose decoded string is in the session cache renders the
cached `SearchResponse` (success state: results set, not loading, no
error) and issues no network call. -/
theorem cached_query_skips_network (decode : String → String)
    (cache : SearchCache) (query : String) (currentPage : Nat)
    (ui : UiState) (resp : SearchResponse)
    (hq : query ≠ "")
    (hc : List.lookup (decode query) cache = some resp) :
    runSearchEffect decode cache query currentPage ui
      = { ui := { results := some resp, loading := false, error := none },
          request := none } := by
  simp [runSearchEffect, hq, hc]

/-- C6 witness: a concrete cache hit. -/
theorem cached_query_skips_network_witness :
    runSearchEffect (fun s => s) [("rust", page1Response)] "rust" 1
        { results := none, loading := true, error := none }
      = { ui := { results := some page1Response, loading := false,
                  error := none },
          request := none } :=
  cached_query_skips_network (fun s => s) [("rust", page1Response)] "rust" 1
    { results := none, loading := true, error := none } page1Response
    (by decide) (by decide)

/-- C2 (code bug): once query `"rust"`'s page-1 response is cached — which
a successful page-1 fetch always does — moving to page 2 re-runs the
effect, hits the cache (keyed by the decoded query only, ignoring the
page), re-renders the page-1 response and issues NO search request at all;
the `page: 2` request the spec describes is only issued when the cache has
no entry for the query. -/
theorem pagination_served_from_cache_bug :
    (runSearchEffect (fun s => s) [("rust", page1Response)] "rust" 2
        { results := some page1Response, loading := false,
          error := none }).request = none
    ∧ (runSearchEffect (fun s => s) [("rust", page1Response)] "rust" 2
        { results := some page1Response, loading := false,
          error := none }).ui.results = some page1Response
    ∧ page1Response.current_page = 1
    ∧ (runSearchEffect (fun s => s) [] "rust" 2
        { results := some page1Response, loading := false,
          error := none }).request
      = some { query := "rust", max_results := 20, page := 2,
               per_page := 20 } := by
  refine ⟨by decide, by decide, by decide, by decide⟩

theorem abortAll_mem {l : List InFlight} {r : InFlight}
    (h : r ∈ abortAll l) : r.aborted = true ∧ ∃ s ∈ l, s.id = r.id := by
  rcases List.mem_map.mp h with ⟨s, hs, rfl⟩
  exact ⟨rfl, s, hs, rfl⟩

theorem stepNavigate_inflight_spec {decode : String → String} {q : String}
    {p : Nat} {m : Machine} {r : InFlight}
    (h : r ∈ (stepNavigate decode q p m).inflight) :
    (r.aborted = true ∧ ∃ s ∈ m.inflight, s.id = r.id) ∨ r.id = m.nextId := by
  simp only [stepNavigate] at h
  rcases List.mem_append.mp h with h | h
  · exact Or.inl (abortAll_mem h)
  · cases hr : (runSearchEffect decode m.cache q p m.ui).request with
    | none => rw [hr] at h; simp [newRequests] at h
    | some fwd =>
        rw [hr] at h
        simp only [newRequests, List.mem_singleton] at h
        exact Or.inr (by simp [h])

theorem stepNavigate_nextId (decode : String → String) (q : String)
    (p : Nat) (m : Machine) :
    (stepNavigate decode q p m).nextId = m.nextId + 1 := rfl

theorem resolveOne_nextId (r : InFlight) (o : SearchOutcome) (m : Machine) :
    (resolveOne r o m).nextId = m.nextId := by
  cases o <;> (unfold resolveOne; split <;> rfl)

/-- After the cleanup triggered by a navigation or the teardown, every
request that was in flight before (in particular any given id `i` below
`nextId`) is aborted. -/
theorem superseded_after_cleanup (decode : String → String) (i : Nat)
    (m : Machine) (e : Event) (hwf : Wf m) (hlt : i < m.nextId)
    (hsup : e = Event.teardown ∨ ∃ q p, e = Event.navigate q p) :
    Superseded i (step decode e m) := by
  rcases hsup with rfl | ⟨q, p, rfl⟩
  · refine ⟨?_, hlt, ?_⟩
    · intro r hrm
      obtain ⟨_, s, hs, hid⟩ := abortAll_mem hrm
      exact hid ▸ hwf s hs
    · intro r hrm _
      exact (abortAll_mem hrm).1
  · have hstep : step decode (Event.navigate q p) m
        = stepNavigate decode q p m := rfl
    rw [hstep]
    refine ⟨?_, ?_, ?_⟩
    · intro r hrm
      rw [stepNavigate_nextId]
      rcases stepNavigate_inflight_spec hrm with ⟨_, s, hs, hid⟩ | hid
      · have := hwf s hs; omega
      · omega
    · rw [stepNavigate_nextId]; omega
    · intro r hrm hid
      rcases stepNavigate_inflight_spec hrm with ⟨ha, _⟩ | hnew
      · exact ha
      · omega

theorem superseded_step (decode : String → String) (i : Nat) (m : Machine)
    (e : Event) (h : Superseded i m) :
    Superseded i (step decode e m) := by
  obtain ⟨hwf, hi, hab⟩ := h
  cases e with
  | navigate q p =>
      exact superseded_after_cleanup decode i m _ hwf hi
        (Or.inr ⟨q, p, rfl⟩)
  | teardown =>
      exact superseded_after_cleanup decode i m _ hwf hi (Or.inl rfl)
  | resolve j o =>
      cases hf : m.inflight.find? (fun r => r.id == j) with
      | none =>
          have hstep : step decode (Event.resolve j o) m = m := by
            simp [step, hf]
          rw [hstep]; exact ⟨hwf, hi, hab⟩
      | some r =>
          have hstep : step decode (Event.resolve j o) m
              = { resolveOne r o m with
                  inflight := m.inflight.filter (fun t => t.id != j) } := by
            simp [step, hf]
          rw [hstep]
          have hsub : ∀ s, s ∈ m.inflight.filter (fun t => t.id != j) →
              s ∈ m.inflight := fun s hs => (List.mem_filter.mp hs).1
          refine ⟨?_, ?_, ?_⟩
          · intro s hs
            have : s.id < m.nextId := hwf s (hsub s hs)
            simpa [resolveOne_nextId] using this
          · simpa [resolveOne_nextId] using hi
          · intro s hs hid
            exact hab s (hsub s hs) hid

theorem superseded_steps (decode : String → String) (i : Nat)
    (es : List Event) (m : Machine) (h : Superseded i m) :
    Superseded i (steps decode es m) := by
  induction es generalizing m with
  | nil => exact h
  | cons e rest ih =>
      exact ih (step decode e m) (superseded_step decode i m e h)

theorem superseded_resolve_no_ui_write (decode : String → String) (i : Nat)
    (o : SearchOutcome) (m : Machine) (h : Superseded i m) :
    (step decode (Event.resolve i o) m).ui = m.ui := by
  obtain ⟨_, _, hab⟩ := h
  simp only [step]
  cases hf : m.inflight.find? (fun r => r.id == i) with
  | none => rfl
  | some r =>
      have hmem := List.mem_of_find?_eq_some hf
      have hid : r.id = i := by
        have := List.find?_some hf
        simpa using this
      have : r.aborted = true := hab r hmem hid
      simp [resolveOne, this]

/-- C7: a search request that was superseded — a later navigation (query
or page change) or the component teardown happened after it was issued,
possibly followed by arbitrary further lifecycle events — never updates
the visible `results` / `loading` / `error` state when its response
finally arrives. -/
theorem superseded_request_never_writes (decode : String → String)
    (m : Machine) (e : Event) (es : List Event) (i : Nat)
    (o : SearchOutcome)
    (hwf : Wf m)
    (hi : i ∈ m.inflight.map InFlight.id)
    (hsup : e = Event.teardown ∨ ∃ q p, e = Event.navigate q p) :
    (step decode (Event.resolve i o) (steps decode es (step decode e m))).ui
      = (steps decode es (step decode e m)).ui := by
  have hlt : i < m.nextId := by
    rcases List.mem_map.mp hi with ⟨r, hr, rfl⟩
    exact hwf r hr
  exact superseded_resolve_no_ui_write decode i o _
    (superseded_steps decode i es _
      (superseded_after_cleanup decode i m e hwf hlt hsup))

/-- C7 witness: a concrete in-flight request for `"rust"`, superseded by a
navigation to `"go"`, resolves successfully without touching the visible
state. -/
theorem superseded_request_never_writes_witness :
    (step (fun s => s) (Event.resolve 0 (SearchOutcome.ok page1Response))
        (steps (fun s => s) []
          (step (fun s => s) (Event.navigate "go" 1)
            { ui := { results := none, loading := true, error := none },
              cache := [],
              inflight := [{ id := 0, decodedQuery := "rust",
                             aborted := false }],
              nextId := 1 }))).ui
      = (steps (fun s => s) []
          (step (fun s => s) (Event.navigate "go" 1)
            { ui := { results := none, loading := true, error := none },
              cache := [],
              inflight := [{ id := 0, decodedQuery := "rust",
                             aborted := false }],
              nextId := 1 })).ui :=
  superseded_request_never_writes (fun s => s)
    { ui := { results := none, loading := true, error := none },
      cache := [],
      inflight := [{ id := 0, decodedQuery := "rust", aborted := false }],
      nextId := 1 }
    (Event.navigate "go" 1) [] 0 (SearchOutcome.ok page1Response)
    (by intro r hr; simp_all) (by simp)
    (Or.inr ⟨"go", 1, rfl⟩)

/-- C8: opening a source tab that is already open only switches the
active tab and issues no summarize request; the stored-summary and
loading flags of `fetchSourceSummary` each suppress a request on their
own; closing the active source tab removes it from the open set and
activates the overview tab. -/
theorem source_tab_management (decodedQuery : String)
    (source : SearchResult) (st : TabsState) :
    (st.sourceTabs.any (fun tab => tab.source_number == source.source_number)
        = true →
      openSourceTab decodedQuery source st
        = ({ st with activeTab := sourceTabId source.source_number }, none))
    ∧ (summaryTruthy (List.lookup source.source_number st.sourceSummaries)
          = true
        ∨ (List.lookup source.source_number st.loadingSummaries).getD false
          = true →
      fetchSourceSummaryStart decodedQuery source st = (st, none))
    ∧ (st.activeTab = sourceTabId source.source_number →
      (closeSourceTab source.source_number st).activeTab = "overview"
      ∧ ∀ tab ∈ (closeSourceTab source.source_number st).sourceTabs,
          tab.source_number ≠ source.source_number) := by
  refine ⟨?_, ?_, ?_⟩
  · intro h
    simp [openSourceTab, h]
  · intro h
    rcases h with h | h <;> simp [fetchSourceSummaryStart, h]
  · intro h
    refine ⟨by simp [closeSourceTab, h], ?_⟩
    intro tab htab
    exact of_decide_eq_true (List.mem_filter.mp htab).2

/-- C8 witness: on `tabsStateOpen`, re-opening source I only switches the
tab, its loading flag suppresses the summarize request, and closing it
falls back to the overview tab. -/
theorem source_tab_management_witness :
    (tabsStateOpen.sourceTabs.any
        (fun tab => tab.source_number == tabSource.source_number) = true →
      openSourceTab "rust" tabSource tabsStateOpen
        = ({ tabsStateOpen with
             activeTab := sourceTabId tabSource.source_number }, none))
    ∧ (summaryTruthy (List.lookup tabSource.source_number
          tabsStateOpen.sourceSummaries) = true
        ∨ (List.lookup tabSource.source_number
            tabsStateOpen.loadingSummaries).getD false = true →
      fetchSourceSummaryStart "rust" tabSource tabsStateOpen
        = (tabsStateOpen, none))
    ∧ (tabsStateOpen.activeTab = sourceTabId tabSource.source_number →
      (closeSourceTab tabSource.source_number tabsStateOpen).activeTab
          = "overview"
      ∧ ∀ tab ∈ (closeSourceTab tabSource.source_number
            tabsStateOpen).sourceTabs,
          tab.source_number ≠ tabSource.source_number) :=
  source_tab_management "rust" tabSource tabsStateOpen

theorem jsIncludes_append_left (pre s : String) :
    jsIncludes (pre ++ s) s = true := by
  simp only [jsIncludes, decide_eq_true_eq]
  exact ⟨pre.data, [], by simp⟩

/-- C9: an empty-or-whitespace query triggers no navigation from either
form; a query with non-whitespace content navigates exactly once, to a
path containing the URL-encoded query. -/
theorem form_submit_navigation (encode : String → String) (q : String) :
    (jsTrim q = "" →
      landingHandleSubmit encode q = []
      ∧ searchPageHandleSubmit encode q = ([], none))
    ∧ (jsTrim q ≠ "" →
      landingHandleSubmit encode q = ["search/" ++ encode q]
      ∧ (searchPageHandleSubmit encode q).1 = ["/search/" ++ encode q]
      ∧ jsIncludes ("search/" ++ encode q) (encode q) = true
      ∧ jsIncludes ("/search/" ++ encode q) (encode q) = true) := by
  constructor
  · intro h
    simp [landingHandleSubmit, searchPageHandleSubmit, h]
  · intro h
    exact ⟨by simp [landingHandleSubmit, h],
      by simp [searchPageHandleSubmit, h],
      jsIncludes_append_left "search/" (encode q),
      jsIncludes_append_left "/search/" (encode q)⟩

/-- C9 witness: the whitespace-only query `"  "` never navigates; the
query `"rust"` navigates exactly once (with `encodeURIComponent`
instantiated as the identity on this reserved-character-free input). -/
theorem form_submit_navigation_witness :
    (jsTrim "rust" ≠ ""
      ∧ landingHandleSubmit (fun s => s) "rust" = ["search/" ++ "rust"]
      ∧ (searchPageHandleSubmit (fun s => s) "rust").1
          = ["/search/" ++ "rust"])
    ∧ (jsTrim "  " = ""
      ∧ landingHandleSubmit (fun s => s) "  " = []
      ∧ searchPageHandleSubmit (fun s => s) "  " = ([], none)) :=
  ⟨⟨by decide,
    ((form_submit_navigation (fun s => s) "rust").2 (by decide)).1,
    ((form_submit_navigation (fun s => s) "rust").2 (by decide)).2.1⟩,
   ⟨by decide,
    ((form_submit_navigation (fun s => s) "  ").1 (by decide)).1,
    ((form_submit_navigation (fun s => s) "  ").1 (by decide)).2⟩⟩

example : toRomanNumeral 1994 = "MCMXCIV" := by decide

example : toRomanNumeral 3999 = "MMMCMXCIX" := by decide

theorem sdata_append (s t : String) : (s ++ t).data = s.data ++ t.data := rfl

theorem sappend_empty (s : String) : s ++ "" = s := by
  cases s with
  | mk l => show String.mk (l ++ []) = String.mk l
            rw [List.append_nil]

theorem sempty_append (s : String) : "" ++ s = s := by
  cases s with
  | mk l => rfl

theorem sappend_assoc (a b c : String) : a ++ b ++ c = a ++ (b ++ c) := by
  cases a with
  | mk la => cases b with
    | mk lb => cases c with
      | mk lc => show String.mk (la ++ lb ++ lc) = String.mk (la ++ (lb ++ lc))
                 rw [List.append_assoc]

theorem nat_div_mod_eq {a b q : Nat} (_hb : 0 < b) (h1 : q * b ≤ a)
    (h2 : a < (q + 1) * b) : a / b = q ∧ a % b = a - b * q := by
  have hd : a / b = q := by
    rw [Nat.div_eq_of_lt_le]
    · exact h1
    · exact h2
  have hm := Nat.mod_add_div a b
  rw [hd] at hm
  exact ⟨hd, by omega⟩

theorem romanLoopGo_spec (v : Nat) (s : String) (m : Nat) (acc : String)
    (fuel : Nat) (hv : 0 < v) (hf : m ≤ fuel) :
    romanLoopGo fuel v s (m : Int) acc
      = (acc ++ joinRep s (m / v), ((m % v : Nat) : Int)) := by
  induction fuel generalizing m acc with
  | zero =>
      have hm : m = 0 := by omega
      subst hm
      simp [romanLoopGo, joinRep, Nat.zero_div, sappend_empty]
  | succ fuel ih =>
      by_cases hle : v ≤ m
      · have hcond : 0 < v ∧ (v : Int) ≤ (m : Int) := ⟨hv, by exact_mod_cast hle⟩
        have hsub : (m : Int) - (v : Int) = ((m - v : Nat) : Int) := by
          push_cast [Nat.cast_sub hle]; ring
        rw [romanLoopGo, if_pos hcond, hsub, ih (m - v) (acc ++ s) (by omega)]
        have hdiv : m / v = (m - v) / v + 1 := by
          rw [Nat.div_eq_sub_div hv hle]
        have hmod : (m - v) % v = m % v := (Nat.mod_eq_sub_mod hle).symm
        rw [hdiv, hmod]
        show ((acc ++ s) ++ joinRep s ((m - v) / v), _)
          = (acc ++ (s ++ joinRep s ((m - v) / v)), _)
        rw [sappend_assoc]
      · have hcond : ¬ (0 < v ∧ (v : Int) ≤ (m : Int)) := by
          rintro ⟨_, h⟩
          exact hle (by exact_mod_cast h)
        rw [romanLoopGo, if_neg hcond, Nat.div_eq_of_lt (by omega),
          Nat.mod_eq_of_lt (by omega)]
        simp [joinRep, sappend_empty]

theorem romanLoop_spec (v : Nat) (s : String) (m : Nat) (acc : String)
    (hv : 0 < v) :
    romanLoop v s (m : Int) acc
      = (acc ++ joinRep s (m / v), ((m % v : Nat) : Int)) := by
  unfold romanLoop
  rw [Int.toNat_natCast]
  exact romanLoopGo_spec v s m acc m hv le_rfl

theorem romanFold_cons (v : Nat) (s : String) (rest : List (Nat × String))
    (num : Int) (acc : String) :
    romanFold ((v, s) :: rest) num acc
      = romanFold rest (romanLoop v s num acc).2 (romanLoop v s num acc).1 :=
  rfl

theorem romanFold_cons' (v : Nat) (s : String) (rest : List (Nat × String))
    (m : Nat) (acc : String) (hv : 0 < v) :
    romanFold ((v, s) :: rest) ((m : Nat) : Int) acc
      = romanFold rest ((m % v : Nat) : Int) (acc ++ joinRep s (m / v)) := by
  rw [romanFold_cons, romanLoop_spec v s m acc hv]

theorem romanFold_cons1000 (s : String) (rest : List (Nat × String))
    (m : Nat) (acc : String) :
    romanFold ((1000, s) :: rest) ((m : Nat) : Int) acc
      = romanFold rest ((m % 1000 : Nat) : Int) (acc ++ joinRep s (m / 1000)) :=
  romanFold_cons' 1000 s rest m acc (by norm_num)

theorem romanFold_cons900 (s : String) (rest : List (Nat × String))
    (m : Nat) (acc : String) :
    romanFold ((900, s) :: rest) ((m : Nat) : Int) acc
      = romanFold rest ((m % 900 : Nat) : Int) (acc ++ joinRep s (m / 900)) :=
  romanFold_cons' 900 s rest m acc (by norm_num)

theorem romanFold_cons500 (s : String) (rest : List (Nat × String))
    (m : Nat) (acc : String) :
    romanFold ((500, s) :: rest) ((m : Nat) : Int) acc
      = romanFold rest ((m % 500 : Nat) : Int) (acc ++ joinRep s (m / 500)) :=
  romanFold_cons' 500 s rest m acc (by norm_num)

theorem romanFold_cons400 (s : String) (rest : List (Nat × String))
    (m : Nat) (acc : String) :
    romanFold ((400, s) :: rest) ((m : Nat) : Int) acc
      = romanFold rest ((m % 400 : Nat) : Int) (acc ++ joinRep s (m / 400)) :=
  romanFold_cons' 400 s rest m acc (by norm_num)

theorem romanFold_cons100 (s : String) (rest : List (Nat × String))
    (m : Nat) (acc : String) :
    romanFold ((100, s) :: rest) ((m : Nat) : Int) acc
      = romanFold rest ((m % 100 : Nat) : Int) (acc ++ joinRep s (m / 100)) :=
  romanFold_cons' 100 s rest m acc (by norm_num)

theorem romanFold_cons90 (s : String) (rest : List (Nat × String))
    (m : Nat) (acc : String) :
    romanFold ((90, s) :: rest) ((m : Nat) : Int) acc
      = romanFold rest ((m % 90 : Nat) : Int) (acc ++ joinRep s (m / 90)) :=
  romanFold_cons' 90 s rest m acc (by norm_num)

theorem romanFold_cons50 (s : String) (rest : List (Nat × String))
    (m : Nat) (acc : String) :
    romanFold ((50, s) :: rest) ((m : Nat) : Int) acc
      = romanFold rest ((m % 50 : Nat) : Int) (acc ++ joinRep s (m / 50)) :=
  romanFold_cons' 50 s rest m acc (by norm_num)

theorem romanFold_cons40 (s : String) (rest : List (Nat × String))
    (m : Nat) (acc : String) :
    romanFold ((40, s) :: rest) ((m : Nat) : Int) acc
      = romanFold rest ((m % 40 : Nat) : Int) (acc ++ joinRep s (m / 40)) :=
  romanFold_cons' 40 s rest m acc (by norm_num)

theorem romanFold_cons10 (s : String) (rest : List (Nat × String))
    (m : Nat) (acc : String) :
    romanFold ((10, s) :: rest) ((m : Nat) : Int) acc
      = romanFold rest ((m % 10 : Nat) : Int) (acc ++ joinRep s (m / 10)) :=
  romanFold_cons' 10 s rest m acc (by norm_num)

theorem romanFold_cons9 (s : String) (rest : List (Nat × String))
    (m : Nat) (acc : String) :
    romanFold ((9, s) :: rest) ((m : Nat) : Int) acc
      = romanFold rest ((m % 9 : Nat) : Int) (acc ++ joinRep s (m / 9)) :=
  romanFold_cons' 9 s rest m acc (by norm_num)

theorem romanFold_cons5 (s : String) (rest : List (Nat × String))
    (m : Nat) (acc : String) :
    romanFold ((5, s) :: rest) ((m : Nat) : Int) acc
      = romanFold rest ((m % 5 : Nat) : Int) (acc ++ joinRep s (m / 5)) :=
  romanFold_cons' 5 s rest m acc (by norm_num)

theorem romanFold_cons4 (s : String) (rest : List (Nat × String))
    (m : Nat) (acc : String) :
    romanFold ((4, s) :: rest) ((m : Nat) : Int) acc
      = romanFold rest ((m % 4 : Nat) : Int) (acc ++ joinRep s (m / 4)) :=
  romanFold_cons' 4 s rest m acc (by norm_num)

theorem romanFold_cons1 (s : String) (rest : List (Nat × String))
    (m : Nat) (acc : String) :
    romanFold ((1, s) :: rest) ((m : Nat) : Int) acc
      = romanFold rest ((m % 1 : Nat) : Int) (acc ++ joinRep s (m / 1)) :=
  romanFold_cons' 1 s rest m acc (by norm_num)

set_option maxRecDepth 4000 in
theorem romanFold_hundreds (rest : List (Nat × String)) (n : Nat) (acc : String)
    (hn : n ≤ 999) :
    romanFold ((900, "CM") :: (500, "D") :: (400, "CD") :: (100, "C") :: rest)
        ((n : Nat) : Int) acc
      = romanFold rest ((n % 100 : Nat) : Int)
          (acc ++ digitStr "CM" "D" "CD" "C" (n / 100)) := by
  set b := n / 100 with hb
  have hble : b ≤ 9 := by omega
  interval_cases b
  · -- digit 0
    have d0 : (n) / 900 = 0 := by omega
    have m0 : (n) % 900 = n := by omega
    have d1 : (n) / 500 = 0 := by omega
    have m1 : (n) % 500 = n := by omega
    have d2 : (n) / 400 = 0 := by omega
    have m2 : (n) % 400 = n := by omega
    have d3 : (n) / 100 = 0 := by omega
    have m3 : (n) % 100 = n := by omega
    have mf : (n) = n % 100 := by omega
    rw [romanFold_cons900, d0, m0, romanFold_cons500, d1, m1, romanFold_cons400, d2, m2, romanFold_cons100, d3, m3, mf]
    congr 1
    simp [joinRep, digitStr, sappend_empty, sappend_assoc]
  · -- digit 1
    have d0 : (n) / 900 = 0 := by omega
    have m0 : (n) % 900 = n := by omega
    have d1 : (n) / 500 = 0 := by omega
    have m1 : (n) % 500 = n := by omega
    have d2 : (n) / 400 = 0 := by omega
    have m2 : (n) % 400 = n := by omega
    have d3 : (n) / 100 = 1 := by omega
    have m3 : (n) % 100 = n - 100 := by omega
    have mf : (n - 100) = n % 100 := by omega
    rw [romanFold_cons900, d0, m0, romanFold_cons500, d1, m1, romanFold_cons400, d2, m2, romanFold_cons100, d3, m3, mf]
    congr 1
    simp [joinRep, digitStr, sappend_empty, sappend_assoc]
  · -- digit 2
    have d0 : (n) / 900 = 0 := by omega
    have m0 : (n) % 900 = n := by omega
    have d1 : (n) / 500 = 0 := by omega
    have m1 : (n) % 500 = n := by omega
    have d2 : (n) / 400 = 0 := by omega
    have m2 : (n) % 400 = n := by omega
    have d3 : (n) / 100 = 2 := by omega
    have m3 : (n) % 100 = n - 200 := by omega
    have mf : (n - 200) = n % 100 := by omega
    rw [romanFold_cons900, d0, m0, romanFold_cons500, d1, m1, romanFold_cons400, d2, m2, romanFold_cons100, d3, m3, mf]
    congr 1
    simp [joinRep, digitStr, sappend_empty, sappend_assoc]
  · -- digit 3
    have d0 : (n) / 900 = 0 := by omega
    have m0 : (n) % 900 = n := by omega
    have d1 : (n) / 500 = 0 := by omega
    have m1 : (n) % 500 = n := by omega
    have d2 : (n) / 400 = 0 := by omega
    have m2 : (n) % 400 = n := by omega
    have d3 : (n) / 100 = 3 := by omega
    have m3 : (n) % 100 = n - 300 := by omega
    have mf : (n - 300) = n % 100 := by omega
    rw [romanFold_cons900, d0, m0, romanFold_cons500, d1, m1, romanFold_cons400, d2, m2, romanFold_cons100, d3, m3, mf]
    congr 1
    simp [joinRep, digitStr, sappend_empty, sappend_assoc]
  · -- digit 4
    have d0 : (n) / 900 = 0 := by omega
    have m0 : (n) % 900 = n := by omega
    have d1 : (n) / 500 = 0 := by omega
    have m1 : (n) % 500 = n := by omega
    have d2 : (n) / 400 = 1 := by omega
    have m2 : (n) % 400 = n - 400 := by omega
    have d3 : (n - 400) / 100 = 0 := by omega
    have m3 : (n - 400) % 100 = n - 400 := by omega
    have mf : (n - 400) = n % 100 := by omega
    rw [romanFold_cons900, d0, m0, romanFold_cons500, d1, m1, romanFold_cons400, d2, m2, romanFold_cons100, d3, m3, mf]
    congr 1
    simp [joinRep, digitStr, sappend_empty, sappend_assoc]
  · -- digit 5
    have d0 : (n) / 900 = 0 := by omega
    have m0 : (n) % 900 = n := by omega
    have d1 : (n) / 500 = 1 := by omega
    have m1 : (n) % 500 = n - 500 := by omega
    have d2 : (n - 500) / 400 = 0 := by omega
    have m2 : (n - 500) % 400 = n - 500 := by omega
    have d3 : (n - 500) / 100 = 0 := by omega
    have m3 : (n - 500) % 100 = n - 500 := by omega
    have mf : (n - 500) = n % 100 := by omega
    rw [romanFold_cons900, d0, m0, romanFold_cons500, d1, m1, romanFold_cons400, d2, m2, romanFold_cons100, d3, m3, mf]
    congr 1
    simp [joinRep, digitStr, sappend_empty, sappend_assoc]
  · -- digit 6
    have d0 : (n) / 900 = 0 := by omega
    have m0 : (n) % 900 = n := by omega
    have d1 : (n) / 500 = 1 := by omega
    have m1 : (n) % 500 = n - 500 := by omega
    have d2 : (n - 500) / 400 = 0 := by omega
    have m2 : (n - 500) % 400 = n - 500 := by omega
    have d3 : (n - 500) / 100 = 1 := by omega
    have m3 : (n - 500) % 100 = n - 600 := by omega
    have mf : (n - 600) = n % 100 := by omega
    rw [romanFold_cons900, d0, m0, romanFold_cons500, d1, m1, romanFold_cons400, d2, m2, romanFold_cons100, d3, m3, mf]
    congr 1
    simp [joinRep, digitStr, sappend_empty, sappend_assoc]
  · -- digit 7
    have d0 : (n) / 900 = 0 := by omega
    have m0 : (n) % 900 = n := by omega
    have d1 : (n) / 500 = 1 := by omega
    have m1 : (n) % 500 = n - 500 := by omega
    have d2 : (n - 500) / 400 = 0 := by omega
    have m2 : (n - 500) % 400 = n - 500 := by omega
    have d3 : (n - 500) / 100 = 2 := by omega
    have m3 : (n - 500) % 100 = n - 700 := by omega
    have mf : (n - 700) = n % 100 := by omega
    rw [romanFold_cons900, d0, m0, romanFold_cons500, d1, m1, romanFold_cons400, d2, m2, romanFold_cons100, d3, m3, mf]
    congr 1
    simp [joinRep, digitStr, sappend_empty, sappend_assoc]
  · -- digit 8
    have d0 : (n) / 900 = 0 := by omega
    have m0 : (n) % 900 = n := by omega
    have d1 : (n) / 500 = 1 := by omega
    have m1 : (n) % 500 = n - 500 := by omega
    have d2 : (n - 500) / 400 = 0 := by omega
    have m2 : (n - 500) % 400 = n - 500 := by omega
    have d3 : (n - 500) / 100 = 3 := by omega
    have m3 : (n - 500) % 100 = n - 800 := by omega
    have mf : (n - 800) = n % 100 := by omega
    rw [romanFold_cons900, d0, m0, romanFold_cons500, d1, m1, romanFold_cons400, d2, m2, romanFold_cons100, d3, m3, mf]
    congr 1
    simp [joinRep, digitStr, sappend_empty, sappend_assoc]
  · -- digit 9
    have d0 : (n) / 900 = 1 := by omega
    have m0 : (n) % 900 = n - 900 := by omega
    have d1 : (n - 900) / 500 = 0 := by omega
    have m1 : (n - 900) % 500 = n - 900 := by omega
    have d2 : (n - 900) / 400 = 0 := by omega
    have m2 : (n - 900) % 400 = n - 900 := by omega
    have d3 : (n - 900) / 100 = 0 := by omega
    have m3 : (n - 900) % 100 = n - 900 := by omega
    have mf : (n - 900) = n % 100 := by omega
    rw [romanFold_cons900, d0, m0, romanFold_cons500, d1, m1, romanFold_cons400, d2, m2, romanFold_cons100, d3, m3, mf]
    congr 1
    simp [joinRep, digitStr, sappend_empty, sappend_assoc]

set_option maxRecDepth 4000 in
theorem romanFold_tens (rest : List (Nat × String)) (n : Nat) (acc : String)
    (hn : n ≤ 99) :
    romanFold ((90, "XC") :: (50, "L") :: (40, "XL") :: (10, "X") :: rest)
        ((n : Nat) : Int) acc
      = romanFold rest ((n % 10 : Nat) : Int)
          (acc ++ digitStr "XC" "L" "XL" "X" (n / 10)) := by
  set b := n / 10 with hb
  have hble : b ≤ 9 := by omega
  interval_cases b
  · -- digit 0
    have d0 : (n) / 90 = 0 := by omega
    have m0 : (n) % 90 = n := by omega
    have d1 : (n) / 50 = 0 := by omega
    have m1 : (n) % 50 = n := by omega
    have d2 : (n) / 40 = 0 := by omega
    have m2 : (n) % 40 = n := by omega
    have d3 : (n) / 10 = 0 := by omega
    have m3 : (n) % 10 = n := by omega
    have mf : (n) = n % 10 := by omega
    rw [romanFold_cons90, d0, m0, romanFold_cons50, d1, m1, romanFold_cons40, d2, m2, romanFold_cons10, d3, m3, mf]
    congr 1
    simp [joinRep, digitStr, sappend_empty, sappend_assoc]
  · -- digit 1
    have d0 : (n) / 90 = 0 := by omega
    have m0 : (n) % 90 = n := by omega
    have d1 : (n) / 50 = 0 := by omega
    have m1 : (n) % 50 = n := by omega
    have d2 : (n) / 40 = 0 := by omega
    have m2 : (n) % 40 = n := by omega
    have d3 : (n) / 10 = 1 := by omega
    have m3 : (n) % 10 = n - 10 := by omega
    have mf : (n - 10) = n % 10 := by omega
    rw [romanFold_cons90, d0, m0, romanFold_cons50, d1, m1, romanFold_cons40, d2, m2, romanFold_cons10, d3, m3, mf]
    congr 1
    simp [joinRep, digitStr, sappend_empty, sappend_assoc]
  · -- digit 2
    have d0 : (n) / 90 = 0 := by omega
    have m0 : (n) % 90 = n := by omega
    have d1 : (n) / 50 = 0 := by omega
    have m1 : (n) % 50 = n := by omega
    have d2 : (n) / 40 = 0 := by omega
    have m2 : (n) % 40 = n := by omega
    have d3 : (n) / 10 = 2 := by omega
    have m3 : (n) % 10 = n - 20 := by omega
    have mf : (n - 20) = n % 10 := by omega
    rw [romanFold_cons90, d0, m0, romanFold_cons50, d1, m1, romanFold_cons40, d2, m2, romanFold_cons10, d3, m3, mf]
    congr 1
    simp [joinRep, digitStr, sappend_empty, sappend_assoc]
  · -- digit 3
    have d0 : (n) / 90 = 0 := by omega
    have m0 : (n) % 90 = n := by omega
    have d1 : (n) / 50 = 0 := by omega
    have m1 : (n) % 50 = n := by omega
    have d2 : (n) / 40 = 0 := by omega
    have m2 : (n) % 40 = n := by omega
    have d3 : (n) / 10 = 3 := by omega
    have m3 : (n) % 10 = n - 30 := by omega
    have mf : (n - 30) = n % 10 := by omega
    rw [romanFold_cons90, d0, m0, romanFold_cons50, d1, m1, romanFold_cons40, d2, m2, romanFold_cons10, d3, m3, mf]
    congr 1
    simp [joinRep, digitStr, sappend_empty, sappend_assoc]
  · -- digit 4
    have d0 : (n) / 90 = 0 := by omega
    have m0 : (n) % 90 = n := by omega
    have d1 : (n) / 50 = 0 := by omega
    have m1 : (n) % 50 = n := by omega
    have d2 : (n) / 40 = 1 := by omega
    have m2 : (n) % 40 = n - 40 := by omega
    have d3 : (n - 40) / 10 = 0 := by omega
    have m3 : (n - 40) % 10 = n - 40 := by omega
    have mf : (n - 40) = n % 10 := by omega
    rw [romanFold_cons90, d0, m0, romanFold_cons50, d1, m1, romanFold_cons40, d2, m2, romanFold_cons10, d3, m3, mf]
    congr 1
    simp [joinRep, digitStr, sappend_empty, sappend_assoc]
  · -- digit 5
    have d0 : (n) / 90 = 0 := by omega
    have m0 : (n) % 90 = n := by omega
    have d1 : (n) / 50 = 1 := by omega
    have m1 : (n) % 50 = n - 50 := by omega
    have d2 : (n - 50) / 40 = 0 := by omega
    have m2 : (n - 50) % 40 = n - 50 := by omega
    have d3 : (n - 50) / 10 = 0 := by omega
    have m3 : (n - 50) % 10 = n - 50 := by omega
    have mf : (n - 50) = n % 10 := by omega
    rw [romanFold_cons90, d0, m0, romanFold_cons50, d1, m1, romanFold_cons40, d2, m2, romanFold_cons10, d3, m3, mf]
    congr 1
    simp [joinRep, digitStr, sappend_empty, sappend_assoc]
  · -- digit 6
    have d0 : (n) / 90 = 0 := by omega
    have m0 : (n) % 90 = n := by omega
    have d1 : (n) / 50 = 1 := by omega
    have m1 : (n) % 50 = n - 50 := by omega
    have d2 : (n - 50) / 40 = 0 := by omega
    have m2 : (n - 50) % 40 = n - 50 := by omega
    have d3 : (n - 50) / 10 = 1 := by omega
    have m3 : (n - 50) % 10 = n - 60 := by omega
    have mf : (n - 60) = n % 10 := by omega
    rw [romanFold_cons90, d0, m0, romanFold_cons50, d1, m1, romanFold_cons40, d2, m2, romanFold_cons10, d3, m3, mf]
    congr 1
    simp [joinRep, digitStr, sappend_empty, sappend_assoc]
  · -- digit 7
    have d0 : (n) / 90 = 0 := by omega
    have m0 : (n) % 90 = n := by omega
    have d1 : (n) / 50 = 1 := by omega
    have m1 : (n) % 50 = n - 50 := by omega
    have d2 : (n - 50) / 40 = 0 := by omega
    have m2 : (n - 50) % 40 = n - 50 := by omega
    have d3 : (n - 50) / 10 = 2 := by omega
    have m3 : (n - 50) % 10 = n - 70 := by omega
    have mf : (n - 70) = n % 10 := by omega
    rw [romanFold_cons90, d0, m0, romanFold_cons50, d1, m1, romanFold_cons40, d2, m2, romanFold_cons10, d3, m3, mf]
    congr 1
    simp [joinRep, digitStr, sappend_empty, sappend_assoc]
  · -- digit 8
    have d0 : (n) / 90 = 0 := by omega
    have m0 : (n) % 90 = n := by omega
    have d1 : (n) / 50 = 1 := by omega
    have m1 : (n) % 50 = n - 50 := by omega
    have d2 : (n - 50) / 40 = 0 := by omega
    have m2 : (n - 50) % 40 = n - 50 := by omega
    have d3 : (n - 50) / 10 = 3 := by omega
    have m3 : (n - 50) % 10 = n - 80 := by omega
    have mf : (n - 80) = n % 10 := by omega
    rw [romanFold_cons90, d0, m0, romanFold_cons50, d1, m1, romanFold_cons40, d2, m2, romanFold_cons10, d3, m3, mf]
    congr 1
    simp [joinRep, digitStr, sappend_empty, sappend_assoc]
  · -- digit 9
    have d0 : (n) / 90 = 1 := by omega
    have m0 : (n) % 90 = n - 90 := by omega
    have d1 : (n - 90) / 50 = 0 := by omega
    have m1 : (n - 90) % 50 = n - 90 := by omega
    have d2 : (n - 90) / 40 = 0 := by omega
    have m2 : (n - 90) % 40 = n - 90 := by omega
    have d3 : (n - 90) / 10 = 0 := by omega
    have m3 : (n - 90) % 10 = n - 90 := by omega
    have mf : (n - 90) = n % 10 := by omega
    rw [romanFold_cons90, d0, m0, romanFold_cons50, d1, m1, romanFold_cons40, d2, m2, romanFold_cons10, d3, m3, mf]
    congr 1
    simp [joinRep, digitStr, sappend_empty, sappend_assoc]

set_option maxRecDepth 4000 in
theorem romanFold_ones (rest : List (Nat × String)) (n : Nat) (acc : String)
    (hn : n ≤ 9) :
    romanFold ((9, "IX") :: (5, "V") :: (4, "IV") :: (1, "I") :: rest)
        ((n : Nat) : Int) acc
      = romanFold rest ((n % 1 : Nat) : Int)
          (acc ++ digitStr "IX" "V" "IV" "I" (n / 1)) := by
  set b := n / 1 with hb
  have hble : b ≤ 9 := by omega
  interval_cases b
  · -- digit 0
    have d0 : (n) / 9 = 0 := by omega
    have m0 : (n) % 9 = n := by omega
    have d1 : (n) / 5 = 0 := by omega
    have m1 : (n) % 5 = n := by omega
    have d2 : (n) / 4 = 0 := by omega
    have m2 : (n) % 4 = n := by omega
    have d3 : (n) / 1 = 0 := by omega
    have m3 : (n) % 1 = n := by omega
    have mf : (n) = n % 1 := by omega
    rw [romanFold_cons9, d0, m0, romanFold_cons5, d1, m1, romanFold_cons4, d2, m2, romanFold_cons1, d3, m3, mf]
    congr 1
    simp [joinRep, digitStr, sappend_empty, sappend_assoc]
  · -- digit 1
    have d0 : (n) / 9 = 0 := by omega
    have m0 : (n) % 9 = n := by omega
    have d1 : (n) / 5 = 0 := by omega
    have m1 : (n) % 5 = n := by omega
    have d2 : (n) / 4 = 0 := by omega
    have m2 : (n) % 4 = n := by omega
    have d3 : (n) / 1 = 1 := by omega
    have m3 : (n) % 1 = n - 1 := by omega
    have mf : (n - 1) = n % 1 := by omega
    rw [romanFold_cons9, d0, m0, romanFold_cons5, d1, m1, romanFold_cons4, d2, m2, romanFold_cons1, d3, m3, mf]
    congr 1
    simp [joinRep, digitStr, sappend_empty, sappend_assoc]
  · -- digit 2
    have d0 : (n) / 9 = 0 := by omega
    have m0 : (n) % 9 = n := by omega
    have d1 : (n) / 5 = 0 := by omega
    have m1 : (n) % 5 = n := by omega
    have d2 : (n) / 4 = 0 := by omega
    have m2 : (n) % 4 = n := by omega
    have d3 : (n) / 1 = 2 := by omega
    have m3 : (n) % 1 = n - 2 := by omega
    have mf : (n - 2) = n % 1 := by omega
    rw [romanFold_cons9, d0, m0, romanFold_cons5, d1, m1, romanFold_cons4, d2, m2, romanFold_cons1, d3, m3, mf]
    congr 1
    simp [joinRep, digitStr, sappend_empty, sappend_assoc]
  · -- digit 3
    have d0 : (n) / 9 = 0 := by omega
    have m0 : (n) % 9 = n := by omega
    have d1 : (n) / 5 = 0 := by omega
    have m1 : (n) % 5 = n := by omega
    have d2 : (n) / 4 = 0 := by omega
    have m2 : (n) % 4 = n := by omega
    have d3 : (n) / 1 = 3 := by omega
    have m3 : (n) % 1 = n - 3 := by omega
    have mf : (n - 3) = n % 1 := by omega
    rw [romanFold_cons9, d0, m0, romanFold_cons5, d1, m1, romanFold_cons4, d2, m2, romanFold_cons1, d3, m3, mf]
    congr 1
    simp [joinRep, digitStr, sappend_empty, sappend_assoc]
  · -- digit 4
    have d0 : (n) / 9 = 0 := by omega
    have m0 : (n) % 9 = n := by omega
    have d1 : (n) / 5 = 0 := by omega
    have m1 : (n) % 5 = n := by omega
    have d2 : (n) / 4 = 1 := by omega
    have m2 : (n) % 4 = n - 4 := by omega
    have d3 : (n - 4) / 1 = 0 := by omega
    have m3 : (n - 4) % 1 = n - 4 := by omega
    have mf : (n - 4) = n % 1 := by omega
    rw [romanFold_cons9, d0, m0, romanFold_cons5, d1, m1, romanFold_cons4, d2, m2, romanFold_cons1, d3, m3, mf]
    congr 1
    simp [joinRep, digitStr, sappend_empty, sappend_assoc]
  · -- digit 5
    have d0 : (n) / 9 = 0 := by omega
    have m0 : (n) % 9 = n := by omega
    have d1 : (n) / 5 = 1 := by omega
    have m1 : (n) % 5 = n - 5 := by omega
    have d2 : (n - 5) / 4 = 0 := by omega
    have m2 : (n - 5) % 4 = n - 5 := by omega
    have d3 : (n - 5) / 1 = 0 := by omega
    have m3 : (n - 5) % 1 = n - 5 := by omega
    have mf : (n - 5) = n % 1 := by omega
    rw [romanFold_cons9, d0, m0, romanFold_cons5, d1, m1, romanFold_cons4, d2, m2, romanFold_cons1, d3, m3, mf]
    congr 1
    simp [joinRep, digitStr, sappend_empty, sappend_assoc]
  · -- digit 6
    have d0 : (n) / 9 = 0 := by omega
    have m0 : (n) % 9 = n := by omega
    have d1 : (n) / 5 = 1 := by omega
    have m1 : (n) % 5 = n - 5 := by omega
    have d2 : (n - 5) / 4 = 0 := by omega
    have m2 : (n - 5) % 4 = n - 5 := by omega
    have d3 : (n - 5) / 1 = 1 := by omega
    have m3 : (n - 5) % 1 = n - 6 := by omega
    have mf : (n - 6) = n % 1 := by omega
    rw [romanFold_cons9, d0, m0, romanFold_cons5, d1, m1, romanFold_cons4, d2, m2, romanFold_cons1, d3, m3, mf]
    congr 1
    simp [joinRep, digitStr, sappend_empty, sappend_assoc]
  · -- digit 7
    have d0 : (n) / 9 = 0 := by omega
    have m0 : (n) % 9 = n := by omega
    have d1 : (n) / 5 = 1 := by omega
    have m1 : (n) % 5 = n - 5 := by omega
    have d2 : (n - 5) / 4 = 0 := by omega
    have m2 : (n - 5) % 4 = n - 5 := by omega
    have d3 : (n - 5) / 1 = 2 := by omega
    have m3 : (n - 5) % 1 = n - 7 := by omega
    have mf : (n - 7) = n % 1 := by omega
    rw [romanFold_cons9, d0, m0, romanFold_cons5, d1, m1, romanFold_cons4, d2, m2, romanFold_cons1, d3, m3, mf]
    congr 1
    simp [joinRep, digitStr, sappend_empty, sappend_assoc]
  · -- digit 8
    have d0 : (n) / 9 = 0 := by omega
    have m0 : (n) % 9 = n := by omega
    have d1 : (n) / 5 = 1 := by omega
    have m1 : (n) % 5 = n - 5 := by omega
    have d2 : (n - 5) / 4 = 0 := by omega
    have m2 : (n - 5) % 4 = n - 5 := by omega
    have d3 : (n - 5) / 1 = 3 := by omega
    have m3 : (n - 5) % 1 = n - 8 := by omega
    have mf : (n - 8) = n % 1 := by omega
    rw [romanFold_cons9, d0, m0, romanFold_cons5, d1, m1, romanFold_cons4, d2, m2, romanFold_cons1, d3, m3, mf]
    congr 1
    simp [joinRep, digitStr, sappend_empty, sappend_assoc]
  · -- digit 9
    have d0 : (n) / 9 = 1 := by omega
    have m0 : (n) % 9 = n - 9 := by omega
    have d1 : (n - 9) / 5 = 0 := by omega
    have m1 : (n - 9) % 5 = n - 9 := by omega
    have d2 : (n - 9) / 4 = 0 := by omega
    have m2 : (n - 9) % 4 = n - 9 := by omega
    have d3 : (n - 9) / 1 = 0 := by omega
    have m3 : (n - 9) % 1 = n - 9 := by omega
    have mf : (n - 9) = n % 1 := by omega
    rw [romanFold_cons9, d0, m0, romanFold_cons5, d1, m1, romanFold_cons4, d2, m2, romanFold_cons1, d3, m3, mf]
    congr 1
    simp [joinRep, digitStr, sappend_empty, sappend_assoc]

theorem toRomanNumeral_decomp (m : Nat) (_hm : m ≤ 3999) :
    toRomanNumeral (m : Int)
      = joinRep "M" (m / 1000)
        ++ digitStr "CM" "D" "CD" "C" (m / 100 % 10)
        ++ digitStr "XC" "L" "XL" "X" (m / 10 % 10)
        ++ digitStr "IX" "V" "IV" "I" (m % 10) := by
  have e1 : m % 1000 % 100 = m % 100 := by omega
  have e2 : m % 1000 / 100 = m / 100 % 10 := by omega
  have e3 : m % 100 % 10 = m % 10 := by omega
  have e4 : m % 100 / 10 = m / 10 % 10 := by omega
  have e5 : m % 10 % 1 = 0 := by omega
  have e6 : m % 10 / 1 = m % 10 := by omega
  show romanFold romanTable (m : Int) "" = _
  rw [romanTable, romanFold_cons1000,
    romanFold_hundreds _ _ _ (by omega), e1, e2,
    romanFold_tens _ _ _ (by omega), e3, e4,
    romanFold_ones _ _ _ (by omega), e5, e6]
  show "" ++ joinRep "M" (m / 1000) ++ _ ++ _ ++ _ = _
  rw [sempty_append]

theorem fromRomanGo_eq (fuel : Nat) (t : List (Nat × String)) (cs : List Char)
    (h : cs.length + t.length ≤ fuel) : fromRomanGo fuel t cs = fromRomanWF t cs := by
  induction fuel generalizing t cs with
  | zero =>
      cases t with
      | nil => simp [fromRomanGo, fromRomanWF]
      | cons p rest => simp at h
  | succ f ih =>
      cases t with
      | nil => simp [fromRomanGo, fromRomanWF]
      | cons p rest =>
          obtain ⟨v, s⟩ := p
          by_cases hg : s.data ≠ [] ∧ s.data.isPrefixOf cs
          · have h1 : s.data.length ≤ cs.length :=
              (List.isPrefixOf_iff_prefix.mp hg.2).length_le
            have h3 : 0 < s.data.length := List.length_pos.mpr hg.1
            rw [fromRomanGo, if_pos hg, fromRomanWF, dif_pos hg,
              ih _ _ (by
                simp only [List.length_drop, List.length_cons] at h ⊢
                omega)]
          · rw [fromRomanGo, if_neg hg, fromRomanWF, dif_neg hg,
              ih _ _ (by simp only [List.length_cons] at h ⊢; omega)]

theorem fromRomanWF_skip (v : Nat) (s : String) (rest : List (Nat × String))
    (cs : List Char) (h : s.data.isPrefixOf cs = false) :
    fromRomanWF ((v, s) :: rest) cs = fromRomanWF rest cs := by
  rw [fromRomanWF, dif_neg]
  simp [h]

theorem fromRomanWF_match (v : Nat) (s : String) (rest : List (Nat × String))
    (cs : List Char) (hs : s.data ≠ []) :
    fromRomanWF ((v, s) :: rest) (s.data ++ cs)
      = v + fromRomanWF ((v, s) :: rest) cs := by
  rw [fromRomanWF, dif_pos]
  · rw [List.drop_left]
  · exact ⟨hs, List.isPrefixOf_iff_prefix.mpr (List.prefix_append _ _)⟩

theorem isPrefixOf_false_of_headNotIn (c : Char) (t : List Char)
    (cs bad : List Char) (h : headNotIn cs bad = true) (hc : c ∈ bad) :
    (c :: t).isPrefixOf cs = false := by
  cases cs with
  | nil => rfl
  | cons d ds =>
      simp [headNotIn] at h
      have : c ≠ d := fun e => h (e ▸ hc)
      simp [List.isPrefixOf, this]

theorem headNotIn_append (a b bad : List Char) (ha : headNotIn a bad = true)
    (hb : headNotIn b bad = true) : headNotIn (a ++ b) bad = true := by
  cases a with
  | nil => simpa using hb
  | cons c cs => simpa [headNotIn] using ha

theorem romanTable_eq : romanTable = (1000, "M") :: romanT1 := rfl

theorem fromRomanWF_thousands (a : Nat) (cs : List Char)
    (hc : headNotIn cs ['M'] = true) :
    fromRomanWF romanTable ((joinRep "M" a).data ++ cs)
      = 1000 * a + fromRomanWF romanT1 cs := by
  induction a with
  | zero =>
      have hskip : ("M" : String).data.isPrefixOf cs = false := by
        rw [show ("M" : String).data = ['M'] from rfl]
        exact isPrefixOf_false_of_headNotIn 'M' [] cs ['M'] hc (by simp)
      rw [show (joinRep "M" 0).data ++ cs = cs from rfl, romanTable_eq,
        fromRomanWF_skip 1000 "M" romanT1 cs hskip]
      omega
  | succ a ih =>
      rw [show (joinRep "M" (a + 1)).data ++ cs
          = ("M" : String).data ++ ((joinRep "M" a).data ++ cs) from by
            show (("M" ++ joinRep "M" a) : String).data ++ cs = _
            rw [sdata_append, List.append_assoc],
        romanTable_eq,
        fromRomanWF_match 1000 "M" romanT1 ((joinRep "M" a).data ++ cs)
          (by decide),
        ← romanTable_eq, ih]
      omega
theorem fromRomanWF_hundreds (b : Nat) (hb : b ≤ 9) (cs : List Char)
    (hc : headNotIn cs ['M', 'C', 'D'] = true) :
    fromRomanWF romanT1 ((digitStr "CM" "D" "CD" "C" b).data ++ cs)
      = 100 * b + fromRomanWF romanT2 cs := by
  have pM : ∀ t, ('M' :: t).isPrefixOf cs = false := fun t =>
    isPrefixOf_false_of_headNotIn 'M' t cs ['M', 'C', 'D'] hc (by simp)
  have pC : ∀ t, ('C' :: t).isPrefixOf cs = false := fun t =>
    isPrefixOf_false_of_headNotIn 'C' t cs ['M', 'C', 'D'] hc (by simp)
  have pD : ∀ t, ('D' :: t).isPrefixOf cs = false := fun t =>
    isPrefixOf_false_of_headNotIn 'D' t cs ['M', 'C', 'D'] hc (by simp)
  rw [show romanT1 = (900, "CM") :: (500, "D") :: (400, "CD") :: (100, "C") :: romanT2 from rfl]
  interval_cases b
  · -- digit 0: (empty)
    rw [show (digitStr "CM" "D" "CD" "C" 0).data ++ cs = cs from rfl]
    rw [fromRomanWF_skip 900 "CM" ((500, "D") :: (400, "CD") :: (100, "C") :: romanT2) (cs) (by simp [show ("CM" : String).data = ['C', 'M'] from rfl, List.isPrefixOf, pC])]
    rw [fromRomanWF_skip 500 "D" ((400, "CD") :: (100, "C") :: romanT2) (cs) (by simp [show ("D" : String).data = ['D'] from rfl, List.isPrefixOf, pD])]
    rw [fromRomanWF_skip 400 "CD" ((100, "C") :: romanT2) (cs) (by simp [show ("CD" : String).data = ['C', 'D'] from rfl, List.isPrefixOf, pC])]
    rw [fromRomanWF_skip 100 "C" (romanT2) (cs) (by simp [show ("C" : String).data = ['C'] from rfl, List.isPrefixOf, pC])]
    try omega
  · -- digit 1: C
    rw [show (digitStr "CM" "D" "CD" "C" 1).data ++ cs = 'C' :: cs from rfl]
    rw [fromRomanWF_skip 900 "CM" ((500, "D") :: (400, "CD") :: (100, "C") :: romanT2) ('C' :: cs) (by simp [show ("CM" : String).data = ['C', 'M'] from rfl, List.isPrefixOf, pM])]
    rw [fromRomanWF_skip 500 "D" ((400, "CD") :: (100, "C") :: romanT2) ('C' :: cs) (by simp [show ("D" : String).data = ['D'] from rfl, List.isPrefixOf])]
    rw [fromRomanWF_skip 400 "CD" ((100, "C") :: romanT2) ('C' :: cs) (by simp [show ("CD" : String).data = ['C', 'D'] from rfl, List.isPrefixOf, pD])]
    rw [show ('C' :: cs) = ("C" : String).data ++ (cs) from rfl]
    rw [fromRomanWF_match 100 "C" (romanT2) (cs) (by decide)]
    rw [fromRomanWF_skip 100 "C" (romanT2) (cs) (by simp [show ("C" : String).data = ['C'] from rfl, List.isPrefixOf, pC])]
    try omega
  · -- digit 2: CC
    rw [show (digitStr "CM" "D" "CD" "C" 2).data ++ cs = 'C' :: 'C' :: cs from rfl]
    rw [fromRomanWF_skip 900 "CM" ((500, "D") :: (400, "CD") :: (100, "C") :: romanT2) ('C' :: 'C' :: cs) (by simp [show ("CM" : String).data = ['C', 'M'] from rfl, List.isPrefixOf])]
    rw [fromRomanWF_skip 500 "D" ((400, "CD") :: (100, "C") :: romanT2) ('C' :: 'C' :: cs) (by simp [show ("D" : String).data = ['D'] from rfl, List.isPrefixOf])]
    rw [fromRomanWF_skip 400 "CD" ((100, "C") :: romanT2) ('C' :: 'C' :: cs) (by simp [show ("CD" : String).data = ['C', 'D'] from rfl, List.isPrefixOf])]
    rw [show ('C' :: 'C' :: cs) = ("C" : String).data ++ ('C' :: cs) from rfl]
    rw [fromRomanWF_match 100 "C" (romanT2) ('C' :: cs) (by decide)]
    rw [show ('C' :: cs) = ("C" : String).data ++ (cs) from rfl]
    rw [fromRomanWF_match 100 "C" (romanT2) (cs) (by decide)]
    rw [fromRomanWF_skip 100 "C" (romanT2) (cs) (by simp [show ("C" : String).data = ['C'] from rfl, List.isPrefixOf, pC])]
    try omega
  · -- digit 3: CCC
    rw [show (digitStr "CM" "D" "CD" "C" 3).data ++ cs = 'C' :: 'C' :: 'C' :: cs from rfl]
    rw [fromRomanWF_skip 900 "CM" ((500, "D") :: (400, "CD") :: (100, "C") :: romanT2) ('C' :: 'C' :: 'C' :: cs) (by simp [show ("CM" : String).data = ['C', 'M'] from rfl, List.isPrefixOf])]
    rw [fromRomanWF_skip 500 "D" ((400, "CD") :: (100, "C") :: romanT2) ('C' :: 'C' :: 'C' :: cs) (by simp [show ("D" : String).data = ['D'] from rfl, List.isPrefixOf])]
    rw [fromRomanWF_skip 400 "CD" ((100, "C") :: romanT2) ('C' :: 'C' :: 'C' :: cs) (by simp [show ("CD" : String).data = ['C', 'D'] from rfl, List.isPrefixOf])]
    rw [show ('C' :: 'C' :: 'C' :: cs) = ("C" : String).data ++ ('C' :: 'C' :: cs) from rfl]
    rw [fromRomanWF_match 100 "C" (romanT2) ('C' :: 'C' :: cs) (by decide)]
    rw [show ('C' :: 'C' :: cs) = ("C" : String).data ++ ('C' :: cs) from rfl]
    rw [fromRomanWF_match 100 "C" (romanT2) ('C' :: cs) (by decide)]
    rw [show ('C' :: cs) = ("C" : String).data ++ (cs) from rfl]
    rw [fromRomanWF_match 100 "C" (romanT2) (cs) (by decide)]
    rw [fromRomanWF_skip 100 "C" (romanT2) (cs) (by simp [show ("C" : String).data = ['C'] from rfl, List.isPrefixOf, pC])]
    try omega
  · -- digit 4: CD
    rw [show (digitStr "CM" "D" "CD" "C" 4).data ++ cs = 'C' :: 'D' :: cs from rfl]
    rw [fromRomanWF_skip 900 "CM" ((500, "D") :: (400, "CD") :: (100, "C") :: romanT2) ('C' :: 'D' :: cs) (by simp [show ("CM" : String).data = ['C', 'M'] from rfl, List.isPrefixOf])]
    rw [fromRomanWF_skip 500 "D" ((400, "CD") :: (100, "C") :: romanT2) ('C' :: 'D' :: cs) (by simp [show ("D" : String).data = ['D'] from rfl, List.isPrefixOf])]
    rw [show ('C' :: 'D' :: cs) = ("CD" : String).data ++ (cs) from rfl]
    rw [fromRomanWF_match 400 "CD" ((100, "C") :: romanT2) (cs) (by decide)]
    rw [fromRomanWF_skip 400 "CD" ((100, "C") :: romanT2) (cs) (by simp [show ("CD" : String).data = ['C', 'D'] from rfl, List.isPrefixOf, pC])]
    rw [fromRomanWF_skip 100 "C" (romanT2) (cs) (by simp [show ("C" : String).data = ['C'] from rfl, List.isPrefixOf, pC])]
    try omega
  · -- digit 5: D
    rw [show (digitStr "CM" "D" "CD" "C" 5).data ++ cs = 'D' :: cs from rfl]
    rw [fromRomanWF_skip 900 "CM" ((500, "D") :: (400, "CD") :: (100, "C") :: romanT2) ('D' :: cs) (by simp [show ("CM" : String).data = ['C', 'M'] from rfl, List.isPrefixOf])]
    rw [show ('D' :: cs) = ("D" : String).data ++ (cs) from rfl]
    rw [fromRomanWF_match 500 "D" ((400, "CD") :: (100, "C") :: romanT2) (cs) (by decide)]
    rw [fromRomanWF_skip 500 "D" ((400, "CD") :: (100, "C") :: romanT2) (cs) (by simp [show ("D" : String).data = ['D'] from rfl, List.isPrefixOf, pD])]
    rw [fromRomanWF_skip 400 "CD" ((100, "C") :: romanT2) (cs) (by simp [show ("CD" : String).data = ['C', 'D'] from rfl, List.isPrefixOf, pC])]
    rw [fromRomanWF_skip 100 "C" (romanT2) (cs) (by simp [show ("C" : String).data = ['C'] from rfl, List.isPrefixOf, pC])]
    try omega
  · -- digit 6: DC
    rw [show (digitStr "CM" "D" "CD" "C" 6).data ++ cs = 'D' :: 'C' :: cs from rfl]
    rw [fromRomanWF_skip 900 "CM" ((500, "D") :: (400, "CD") :: (100, "C") :: romanT2) ('D' :: 'C' :: cs) (by simp [show ("CM" : String).data = ['C', 'M'] from rfl, List.isPrefixOf])]
    rw [show ('D' :: 'C' :: cs) = ("D" : String).data ++ ('C' :: cs) from rfl]
    rw [fromRomanWF_match 500 "D" ((400, "CD") :: (100, "C") :: romanT2) ('C' :: cs) (by decide)]
    rw [fromRomanWF_skip 500 "D" ((400, "CD") :: (100, "C") :: romanT2) ('C' :: cs) (by simp [show ("D" : String).data = ['D'] from rfl, List.isPrefixOf])]
    rw [fromRomanWF_skip 400 "CD" ((100, "C") :: romanT2) ('C' :: cs) (by simp [show ("CD" : String).data = ['C', 'D'] from rfl, List.isPrefixOf, pD])]
    rw [show ('C' :: cs) = ("C" : String).data ++ (cs) from rfl]
    rw [fromRomanWF_match 100 "C" (romanT2) (cs) (by decide)]
    rw [fromRomanWF_skip 100 "C" (romanT2) (cs) (by simp [show ("C" : String).data = ['C'] from rfl, List.isPrefixOf, pC])]
    try omega
  · -- digit 7: DCC
    rw [show (digitStr "CM" "D" "CD" "C" 7).data ++ cs = 'D' :: 'C' :: 'C' :: cs from rfl]
    rw [fromRomanWF_skip 900 "CM" ((500, "D") :: (400, "CD") :: (100, "C") :: romanT2) ('D' :: 'C' :: 'C' :: cs) (by simp [show ("CM" : String).data = ['C', 'M'] from rfl, List.isPrefixOf])]
    rw [show ('D' :: 'C' :: 'C' :: cs) = ("D" : String).data ++ ('C' :: 'C' :: cs) from rfl]
    rw [fromRomanWF_match 500 "D" ((400, "CD") :: (100, "C") :: romanT2) ('C' :: 'C' :: cs) (by decide)]
    rw [fromRomanWF_skip 500 "D" ((400, "CD") :: (100, "C") :: romanT2) ('C' :: 'C' :: cs) (by simp [show ("D" : String).data = ['D'] from rfl, List.isPrefixOf])]
    rw [fromRomanWF_skip 400 "CD" ((100, "C") :: romanT2) ('C' :: 'C' :: cs) (by simp [show ("CD" : String).data = ['C', 'D'] from rfl, List.isPrefixOf])]
    rw [show ('C' :: 'C' :: cs) = ("C" : String).data ++ ('C' :: cs) from rfl]
    rw [fromRomanWF_match 100 "C" (romanT2) ('C' :: cs) (by decide)]
    rw [show ('C' :: cs) = ("C" : String).data ++ (cs) from rfl]
    rw [fromRomanWF_match 100 "C" (romanT2) (cs) (by decide)]
    rw [fromRomanWF_skip 100 "C" (romanT2) (cs) (by simp [show ("C" : String).data = ['C'] from rfl, List.isPrefixOf, pC])]
    try omega
  · -- digit 8: DCCC
    rw [show (digitStr "CM" "D" "CD" "C" 8).data ++ cs = 'D' :: 'C' :: 'C' :: 'C' :: cs from rfl]
    rw [fromRomanWF_skip 900 "CM" ((500, "D") :: (400, "CD") :: (100, "C") :: romanT2) ('D' :: 'C' :: 'C' :: 'C' :: cs) (by simp [show ("CM" : String).data = ['C', 'M'] from rfl, List.isPrefixOf])]
    rw [show ('D' :: 'C' :: 'C' :: 'C' :: cs) = ("D" : String).data ++ ('C' :: 'C' :: 'C' :: cs) from rfl]
    rw [fromRomanWF_match 500 "D" ((400, "CD") :: (100, "C") :: romanT2) ('C' :: 'C' :: 'C' :: cs) (by decide)]
    rw [fromRomanWF_skip 500 "D" ((400, "CD") :: (100, "C") :: romanT2) ('C' :: 'C' :: 'C' :: cs) (by simp [show ("D" : String).data = ['D'] from rfl, List.isPrefixOf])]
    rw [fromRomanWF_skip 400 "CD" ((100, "C") :: romanT2) ('C' :: 'C' :: 'C' :: cs) (by simp [show ("CD" : String).data = ['C', 'D'] from rfl, List.isPrefixOf])]
    rw [show ('C' :: 'C' :: 'C' :: cs) = ("C" : String).data ++ ('C' :: 'C' :: cs) from rfl]
    rw [fromRomanWF_match 100 "C" (romanT2) ('C' :: 'C' :: cs) (by decide)]
    rw [show ('C' :: 'C' :: cs) = ("C" : String).data ++ ('C' :: cs) from rfl]
    rw [fromRomanWF_match 100 "C" (romanT2) ('C' :: cs) (by decide)]
    rw [show ('C' :: cs) = ("C" : String).data ++ (cs) from rfl]
    rw [fromRomanWF_match 100 "C" (romanT2) (cs) (by decide)]
    rw [fromRomanWF_skip 100 "C" (romanT2) (cs) (by simp [show ("C" : String).data = ['C'] from rfl, List.isPrefixOf, pC])]
    try omega
  · -- digit 9: CM
    rw [show (digitStr "CM" "D" "CD" "C" 9).data ++ cs = 'C' :: 'M' :: cs from rfl]
    rw [show ('C' :: 'M' :: cs) = ("CM" : String).data ++ (cs) from rfl]
    rw [fromRomanWF_match 900 "CM" ((500, "D") :: (400, "CD") :: (100, "C") :: romanT2) (cs) (by decide)]
    rw [fromRomanWF_skip 900 "CM" ((500, "D") :: (400, "CD") :: (100, "C") :: romanT2) (cs) (by simp [show ("CM" : String).data = ['C', 'M'] from rfl, List.isPrefixOf, pC])]
    rw [fromRomanWF_skip 500 "D" ((400, "CD") :: (100, "C") :: romanT2) (cs) (by simp [show ("D" : String).data = ['D'] from rfl, List.isPrefixOf, pD])]
    rw [fromRomanWF_skip 400 "CD" ((100, "C") :: romanT2) (cs) (by simp [show ("CD" : String).data = ['C', 'D'] from rfl, List.isPrefixOf, pC])]
    rw [fromRomanWF_skip 100 "C" (romanT2) (cs) (by simp [show ("C" : String).data = ['C'] from rfl, List.isPrefixOf, pC])]
    try omega

theorem fromRomanWF_tens (b : Nat) (hb : b ≤ 9) (cs : List Char)
    (hc : headNotIn cs ['X', 'L', 'C'] = true) :
    fromRomanWF romanT2 ((digitStr "XC" "L" "XL" "X" b).data ++ cs)
      = 10 * b + fromRomanWF romanT3 cs := by
  have pX : ∀ t, ('X' :: t).isPrefixOf cs = false := fun t =>
    isPrefixOf_false_of_headNotIn 'X' t cs ['X', 'L', 'C'] hc (by simp)
  have pL : ∀ t, ('L' :: t).isPrefixOf cs = false := fun t =>
    isPrefixOf_false_of_headNotIn 'L' t cs ['X', 'L', 'C'] hc (by simp)
  have pC : ∀ t, ('C' :: t).isPrefixOf cs = false := fun t =>
    isPrefixOf_false_of_headNotIn 'C' t cs ['X', 'L', 'C'] hc (by simp)
  rw [show romanT2 = (90, "XC") :: (50, "L") :: (40, "XL") :: (10, "X") :: romanT3 from rfl]
  interval_cases b
  · -- digit 0: (empty)
    rw [show (digitStr "XC" "L" "XL" "X" 0).data ++ cs = cs from rfl]
    rw [fromRomanWF_skip 90 "XC" ((50, "L") :: (40, "XL") :: (10, "X") :: romanT3) (cs) (by simp [show ("XC" : String).data = ['X', 'C'] from rfl, List.isPrefixOf, pX])]
    rw [fromRomanWF_skip 50 "L" ((40, "XL") :: (10, "X") :: romanT3) (cs) (by simp [show ("L" : String).data = ['L'] from rfl, List.isPrefixOf, pL])]
    rw [fromRomanWF_skip 40 "XL" ((10, "X") :: romanT3) (cs) (by simp [show ("XL" : String).data = ['X', 'L'] from rfl, List.isPrefixOf, pX])]
    rw [fromRomanWF_skip 10 "X" (romanT3) (cs) (by simp [show ("X" : String).data = ['X'] from rfl, List.isPrefixOf, pX])]
    try omega
  · -- digit 1: X
    rw [show (digitStr "XC" "L" "XL" "X" 1).data ++ cs = 'X' :: cs from rfl]
    rw [fromRomanWF_skip 90 "XC" ((50, "L") :: (40, "XL") :: (10, "X") :: romanT3) ('X' :: cs) (by simp [show ("XC" : String).data = ['X', 'C'] from rfl, List.isPrefixOf, pC])]
    rw [fromRomanWF_skip 50 "L" ((40, "XL") :: (10, "X") :: romanT3) ('X' :: cs) (by simp [show ("L" : String).data = ['L'] from rfl, List.isPrefixOf])]
    rw [fromRomanWF_skip 40 "XL" ((10, "X") :: romanT3) ('X' :: cs) (by simp [show ("XL" : String).data = ['X', 'L'] from rfl, List.isPrefixOf, pL])]
    rw [show ('X' :: cs) = ("X" : String).data ++ (cs) from rfl]
    rw [fromRomanWF_match 10 "X" (romanT3) (cs) (by decide)]
    rw [fromRomanWF_skip 10 "X" (romanT3) (cs) (by simp [show ("X" : String).data = ['X'] from rfl, List.isPrefixOf, pX])]
    try omega
  · -- digit 2: XX
    rw [show (digitStr "XC" "L" "XL" "X" 2).data ++ cs = 'X' :: 'X' :: cs from rfl]
    rw [fromRomanWF_skip 90 "XC" ((50, "L") :: (40, "XL") :: (10, "X") :: romanT3) ('X' :: 'X' :: cs) (by simp [show ("XC" : String).data = ['X', 'C'] from rfl, List.isPrefixOf])]
    rw [fromRomanWF_skip 50 "L" ((40, "XL") :: (10, "X") :: romanT3) ('X' :: 'X' :: cs) (by simp [show ("L" : String).data = ['L'] from rfl, List.isPrefixOf])]
    rw [fromRomanWF_skip 40 "XL" ((10, "X") :: romanT3) ('X' :: 'X' :: cs) (by simp [show ("XL" : String).data = ['X', 'L'] from rfl, List.isPrefixOf])]
    rw [show ('X' :: 'X' :: cs) = ("X" : String).data ++ ('X' :: cs) from rfl]
    rw [fromRomanWF_match 10 "X" (romanT3) ('X' :: cs) (by decide)]
    rw [show ('X' :: cs) = ("X" : String).data ++ (cs) from rfl]
    rw [fromRomanWF_match 10 "X" (romanT3) (cs) (by decide)]
    rw [fromRomanWF_skip 10 "X" (romanT3) (cs) (by simp [show ("X" : String).data = ['X'] from rfl, List.isPrefixOf, pX])]
    try omega
  · -- digit 3: XXX
    rw [show (digitStr "XC" "L" "XL" "X" 3).data ++ cs = 'X' :: 'X' :: 'X' :: cs from rfl]
    rw [fromRomanWF_skip 90 "XC" ((50, "L") :: (40, "XL") :: (10, "X") :: romanT3) ('X' :: 'X' :: 'X' :: cs) (by simp [show ("XC" : String).data = ['X', 'C'] from rfl, List.isPrefixOf])]
    rw [fromRomanWF_skip 50 "L" ((40, "XL") :: (10, "X") :: romanT3) ('X' :: 'X' :: 'X' :: cs) (by simp [show ("L" : String).data = ['L'] from rfl, List.isPrefixOf])]
    rw [fromRomanWF_skip 40 "XL" ((10, "X") :: romanT3) ('X' :: 'X' :: 'X' :: cs) (by simp [show ("XL" : String).data = ['X', 'L'] from rfl, List.isPrefixOf])]
    rw [show ('X' :: 'X' :: 'X' :: cs) = ("X" : String).data ++ ('X' :: 'X' :: cs) from rfl]
    rw [fromRomanWF_match 10 "X" (romanT3) ('X' :: 'X' :: cs) (by decide)]
    rw [show ('X' :: 'X' :: cs) = ("X" : String).data ++ ('X' :: cs) from rfl]
    rw [fromRomanWF_match 10 "X" (romanT3) ('X' :: cs) (by decide)]
    rw [show ('X' :: cs) = ("X" : String).data ++ (cs) from rfl]
    rw [fromRomanWF_match 10 "X" (romanT3) (cs) (by decide)]
    rw [fromRomanWF_skip 10 "X" (romanT3) (cs) (by simp [show ("X" : String).data = ['X'] from rfl, List.isPrefixOf, pX])]
    try omega
  · -- digit 4: XL
    rw [show (digitStr "XC" "L" "XL" "X" 4).data ++ cs = 'X' :: 'L' :: cs from rfl]
    rw [fromRomanWF_skip 90 "XC" ((50, "L") :: (40, "XL") :: (10, "X") :: romanT3) ('X' :: 'L' :: cs) (by simp [show ("XC" : String).data = ['X', 'C'] from rfl, List.isPrefixOf])]
    rw [fromRomanWF_skip 50 "L" ((40, "XL") :: (10, "X") :: romanT3) ('X' :: 'L' :: cs) (by simp [show ("L" : String).data = ['L'] from rfl, List.isPrefixOf])]
    rw [show ('X' :: 'L' :: cs) = ("XL" : String).data ++ (cs) from rfl]
    rw [fromRomanWF_match 40 "XL" ((10, "X") :: romanT3) (cs) (by decide)]
    rw [fromRomanWF_skip 40 "XL" ((10, "X") :: romanT3) (cs) (by simp [show ("XL" : String).data = ['X', 'L'] from rfl, List.isPrefixOf, pX])]
    rw [fromRomanWF_skip 10 "X" (romanT3) (cs) (by simp [show ("X" : String).data = ['X'] from rfl, List.isPrefixOf, pX])]
    try omega
  · -- digit 5: L
    rw [show (digitStr "XC" "L" "XL" "X" 5).data ++ cs = 'L' :: cs from rfl]
    rw [fromRomanWF_skip 90 "XC" ((50, "L") :: (40, "XL") :: (10, "X") :: romanT3) ('L' :: cs) (by simp [show ("XC" : String).data = ['X', 'C'] from rfl, List.isPrefixOf])]
    rw [show ('L' :: cs) = ("L" : String).data ++ (cs) from rfl]
    rw [fromRomanWF_match 50 "L" ((40, "XL") :: (10, "X") :: romanT3) (cs) (by decide)]
    rw [fromRomanWF_skip 50 "L" ((40, "XL") :: (10, "X") :: romanT3) (cs) (by simp [show ("L" : String).data = ['L'] from rfl, List.isPrefixOf, pL])]
    rw [fromRomanWF_skip 40 "XL" ((10, "X") :: romanT3) (cs) (by simp [show ("XL" : String).data = ['X', 'L'] from rfl, List.isPrefixOf, pX])]
    rw [fromRomanWF_skip 10 "X" (romanT3) (cs) (by simp [show ("X" : String).data = ['X'] from rfl, List.isPrefixOf, pX])]
    try omega
  · -- digit 6: LX
    rw [show (digitStr "XC" "L" "XL" "X" 6).data ++ cs = 'L' :: 'X' :: cs from rfl]
    rw [fromRomanWF_skip 90 "XC" ((50, "L") :: (40, "XL") :: (10, "X") :: romanT3) ('L' :: 'X' :: cs) (by simp [show ("XC" : String).data = ['X', 'C'] from rfl, List.isPrefixOf])]
    rw [show ('L' :: 'X' :: cs) = ("L" : String).data ++ ('X' :: cs) from rfl]
    rw [fromRomanWF_match 50 "L" ((40, "XL") :: (10, "X") :: romanT3) ('X' :: cs) (by decide)]
    rw [fromRomanWF_skip 50 "L" ((40, "XL") :: (10, "X") :: romanT3) ('X' :: cs) (by simp [show ("L" : String).data = ['L'] from rfl, List.isPrefixOf])]
    rw [fromRomanWF_skip 40 "XL" ((10, "X") :: romanT3) ('X' :: cs) (by simp [show ("XL" : String).data = ['X', 'L'] from rfl, List.isPrefixOf, pL])]
    rw [show ('X' :: cs) = ("X" : String).data ++ (cs) from rfl]
    rw [fromRomanWF_match 10 "X" (romanT3) (cs) (by decide)]
    rw [fromRomanWF_skip 10 "X" (romanT3) (cs) (by simp [show ("X" : String).data = ['X'] from rfl, List.isPrefixOf, pX])]
    try omega
  · -- digit 7: LXX
    rw [show (digitStr "XC" "L" "XL" "X" 7).data ++ cs = 'L' :: 'X' :: 'X' :: cs from rfl]
    rw [fromRomanWF_skip 90 "XC" ((50, "L") :: (40, "XL") :: (10, "X") :: romanT3) ('L' :: 'X' :: 'X' :: cs) (by simp [show ("XC" : String).data = ['X', 'C'] from rfl, List.isPrefixOf])]
    rw [show ('L' :: 'X' :: 'X' :: cs) = ("L" : String).data ++ ('X' :: 'X' :: cs) from rfl]
    rw [fromRomanWF_match 50 "L" ((40, "XL") :: (10, "X") :: romanT3) ('X' :: 'X' :: cs) (by decide)]
    rw [fromRomanWF_skip 50 "L" ((40, "XL") :: (10, "X") :: romanT3) ('X' :: 'X' :: cs) (by simp [show ("L" : String).data = ['L'] from rfl, List.isPrefixOf])]
    rw [fromRomanWF_skip 40 "XL" ((10, "X") :: romanT3) ('X' :: 'X' :: cs) (by simp [show ("XL" : String).data = ['X', 'L'] from rfl, List.isPrefixOf])]
    rw [show ('X' :: 'X' :: cs) = ("X" : String).data ++ ('X' :: cs) from rfl]
    rw [fromRomanWF_match 10 "X" (romanT3) ('X' :: cs) (by decide)]
    rw [show ('X' :: cs) = ("X" : String).data ++ (cs) from rfl]
    rw [fromRomanWF_match 10 "X" (romanT3) (cs) (by decide)]
    rw [fromRomanWF_skip 10 "X" (romanT3) (cs) (by simp [show ("X" : String).data = ['X'] from rfl, List.isPrefixOf, pX])]
    try omega
  · -- digit 8: LXXX
    rw [show (digitStr "XC" "L" "XL" "X" 8).data ++ cs = 'L' :: 'X' :: 'X' :: 'X' :: cs from rfl]
    rw [fromRomanWF_skip 90 "XC" ((50, "L") :: (40, "XL") :: (10, "X") :: romanT3) ('L' :: 'X' :: 'X' :: 'X' :: cs) (by simp [show ("XC" : String).data = ['X', 'C'] from rfl, List.isPrefixOf])]
    rw [show ('L' :: 'X' :: 'X' :: 'X' :: cs) = ("L" : String).data ++ ('X' :: 'X' :: 'X' :: cs) from rfl]
    rw [fromRomanWF_match 50 "L" ((40, "XL") :: (10, "X") :: romanT3) ('X' :: 'X' :: 'X' :: cs) (by decide)]
    rw [fromRomanWF_skip 50 "L" ((40, "XL") :: (10, "X") :: romanT3) ('X' :: 'X' :: 'X' :: cs) (by simp [show ("L" : String).data = ['L'] from rfl, List.isPrefixOf])]
    rw [fromRomanWF_skip 40 "XL" ((10, "X") :: romanT3) ('X' :: 'X' :: 'X' :: cs) (by simp [show ("XL" : String).data = ['X', 'L'] from rfl, List.isPrefixOf])]
    rw [show ('X' :: 'X' :: 'X' :: cs) = ("X" : String).data ++ ('X' :: 'X' :: cs) from rfl]
    rw [fromRomanWF_match 10 "X" (romanT3) ('X' :: 'X' :: cs) (by decide)]
    rw [show ('X' :: 'X' :: cs) = ("X" : String).data ++ ('X' :: cs) from rfl]
    rw [fromRomanWF_match 10 "X" (romanT3) ('X' :: cs) (by decide)]
    rw [show ('X' :: cs) = ("X" : String).data ++ (cs) from rfl]
    rw [fromRomanWF_match 10 "X" (romanT3) (cs) (by decide)]
    rw [fromRomanWF_skip 10 "X" (romanT3) (cs) (by simp [show ("X" : String).data = ['X'] from rfl, List.isPrefixOf, pX])]
    try omega
  · -- digit 9: XC
    rw [show (digitStr "XC" "L" "XL" "X" 9).data ++ cs = 'X' :: 'C' :: cs from rfl]
    rw [show ('X' :: 'C' :: cs) = ("XC" : String).data ++ (cs) from rfl]
    rw [fromRomanWF_match 90 "XC" ((50, "L") :: (40, "XL") :: (10, "X") :: romanT3) (cs) (by decide)]
    rw [fromRomanWF_skip 90 "XC" ((50, "L") :: (40, "XL") :: (10, "X") :: romanT3) (cs) (by simp [show ("XC" : String).data = ['X', 'C'] from rfl, List.isPrefixOf, pX])]
    rw [fromRomanWF_skip 50 "L" ((40, "XL") :: (10, "X") :: romanT3) (cs) (by simp [show ("L" : String).data = ['L'] from rfl, List.isPrefixOf, pL])]
    rw [fromRomanWF_skip 40 "XL" ((10, "X") :: romanT3) (cs) (by simp [show ("XL" : String).data = ['X', 'L'] from rfl, List.isPrefixOf, pX])]
    rw [fromRomanWF_skip 10 "X" (romanT3) (cs) (by simp [show ("X" : String).data = ['X'] from rfl, List.isPrefixOf, pX])]
    try omega

theorem fromRomanWF_ones (d : Nat) (hd : d ≤ 9) :
    fromRomanWF romanT3 (digitStr "IX" "V" "IV" "I" d).data = d := by
  interval_cases d <;>
    rw [← fromRomanGo_eq 20 romanT3 _ (by decide)] <;> decide

theorem headNotIn_mono (cs bad bad' : List Char)
    (hsub : ∀ c ∈ bad, c ∈ bad') (h : headNotIn cs bad' = true) :
    headNotIn cs bad = true := by
  cases cs with
  | nil => rfl
  | cons c t =>
      simp [headNotIn] at h ⊢
      exact fun hc => h (hsub c hc)

theorem headNotIn_hundredsStr (b : Nat) (hb : b ≤ 9) :
    headNotIn (digitStr "CM" "D" "CD" "C" b).data ['M'] = true := by
  interval_cases b <;> decide

theorem headNotIn_tensStr (c : Nat) (hc : c ≤ 9) :
    headNotIn (digitStr "XC" "L" "XL" "X" c).data ['M', 'C', 'D'] = true := by
  interval_cases c <;> decide

theorem headNotIn_onesStr (d : Nat) (hd : d ≤ 9) :
    headNotIn (digitStr "IX" "V" "IV" "I" d).data
      ['M', 'C', 'D', 'X', 'L'] = true := by
  interval_cases d <;> decide

theorem fromRoman_eq_WF (s : String) :
    fromRoman s = fromRomanWF romanTable s.data := by
  unfold fromRoman
  exact fromRomanGo_eq _ _ _ le_rfl

theorem fromRoman_decomp (m : Nat) :
    fromRoman (joinRep "M" (m / 1000)
        ++ digitStr "CM" "D" "CD" "C" (m / 100 % 10)
        ++ digitStr "XC" "L" "XL" "X" (m / 10 % 10)
        ++ digitStr "IX" "V" "IV" "I" (m % 10)) = m := by
  have hb : m / 100 % 10 ≤ 9 := by omega
  have hc : m / 10 % 10 ≤ 9 := by omega
  have hd : m % 10 ≤ 9 := by omega
  have hTO : headNotIn ((digitStr "XC" "L" "XL" "X" (m / 10 % 10)).data
      ++ (digitStr "IX" "V" "IV" "I" (m % 10)).data) ['M', 'C', 'D'] = true :=
    headNotIn_append _ _ _ (headNotIn_tensStr _ hc)
      (headNotIn_mono _ _ _ (by decide) (headNotIn_onesStr _ hd))
  have hHTO : headNotIn ((digitStr "CM" "D" "CD" "C" (m / 100 % 10)).data
      ++ ((digitStr "XC" "L" "XL" "X" (m / 10 % 10)).data
        ++ (digitStr "IX" "V" "IV" "I" (m % 10)).data)) ['M'] = true :=
    headNotIn_append _ _ _ (headNotIn_hundredsStr _ hb)
      (headNotIn_mono _ _ _ (by decide) hTO)
  rw [fromRoman_eq_WF, sdata_append, sdata_append, sdata_append,
    List.append_assoc, List.append_assoc,
    fromRomanWF_thousands _ _ hHTO,
    fromRomanWF_hundreds _ hb _ hTO,
    fromRomanWF_tens _ hc _
      (headNotIn_mono _ _ _ (by decide) (headNotIn_onesStr _ hd)),
    fromRomanWF_ones _ hd]
  omega

theorem romanLoop_nonpos (v : Nat) (s : String) (num : Int) (acc : String)
    (h : num ≤ 0) : romanLoop v s num acc = (acc, num) := by
  unfold romanLoop
  rw [Int.toNat_of_nonpos h]
  rfl

theorem romanFold_nonpos (t : List (Nat × String)) (num : Int)
    (acc : String) (h : num ≤ 0) : romanFold t num acc = acc := by
  induction t generalizing acc with
  | nil => rfl
  | cons p rest ih =>
      obtain ⟨v, s⟩ := p
      simp only [romanFold, romanLoop_nonpos v s num acc h]
      exact ih acc

/-- C10: for every integer 1 ≤ n ≤ 3999, `toRomanNumeral n` is the
canonical Roman numeral of `n` in the sense that the greedy decoder
`fromRoman` maps it back to `n`; and for every n ≤ 0 the result is the
empty string (no loop body ever runs). -/
theorem toRomanNumeral_roundtrip (n : Int) :
    (1 ≤ n → n ≤ 3999 → (fromRoman (toRomanNumeral n) : Int) = n)
    ∧ (n ≤ 0 → toRomanNumeral n = "") := by
  constructor
  · intro h1 h2
    have hn : n = ((n.toNat : Nat) : Int) := by omega
    rw [hn, toRomanNumeral_decomp n.toNat (by omega),
      fromRoman_decomp n.toNat]
  · intro h
    exact romanFold_nonpos romanTable n "" h

/-- C10 witness: 1994 decodes back from `"MCMXCIV"`, and −3 yields the
empty string. -/
theorem toRomanNumeral_roundtrip_witness :
    (1 ≤ (1994 : Int)
      ∧ (fromRoman (toRomanNumeral (1994 : Int)) : Int) = 1994)
    ∧ ((-3 : Int) ≤ 0 ∧ toRomanNumeral (-3 : Int) = "") :=
  ⟨⟨by decide, (toRomanNumeral_roundtrip 1994).1 (by decide) (by decide)⟩,
   ⟨by decide, (toRomanNumeral_roundtrip (-3)).2 (by decide)⟩⟩

end Parsr

